import Mathlib

/-!
Verification of the budget-planner backend (`src/backend/server.py`).

The Python handlers are shallowly embedded: Mongo collections become Lean
lists in insertion order, `datetime` values become calendar dates (the
claims under study never depend on the time-of-day component), `float`
amounts become rationals, and Python exceptions (`ValueError` from
`datetime.replace`, `ZeroDivisionError`, HTTP 404) become `Except Unit`
results.  Generated UUIDs and `datetime.utcnow()` are passed in as
explicit parameters.
-/

namespace BudgetApp

/-- `TransactionType` enum from server.py. -/
inductive TransactionType where
  | income
  | expense
deriving DecidableEq, Repr

/-- `RecurrenceType` enum from server.py. -/
inductive RecurrenceType where
  | none
  | daily
  | weekly
  | monthly
  | yearly
deriving DecidableEq, Repr

/-- `Currency` enum from server.py. -/
inductive Currency where
  | INR
  | USD
deriving DecidableEq, Repr

/-- `TransactionCategory` enum from server.py. -/
inductive TransactionCategory where
  | salary
  | freelance
  | business
  | investment
  | other_income
  | food
  | transportation
  | housing
  | utilities
  | entertainment
  | healthcare
  | education
  | shopping
  | other_expense
deriving DecidableEq, Repr

/-- Calendar date, standing in for Python `datetime` (time of day is
irrelevant to every property considered here). -/
structure Date where
  year : Nat
  month : Nat
  day : Nat
deriving DecidableEq, Repr

/-- Gregorian leap-year test. -/
def isLeap (y : Nat) : Bool :=
  (y % 4 == 0 && y % 100 != 0) || y % 400 == 0

/-- Number of days in a month of a given year. -/
def daysInMonth (y m : Nat) : Nat :=
  if m = 2 then (if isLeap y then 29 else 28)
  else if m = 4 ∨ m = 6 ∨ m = 9 ∨ m = 11 then 30
  else 31

/-- A date Python's `datetime` can actually represent. -/
def Date.valid (d : Date) : Prop :=
  1 ≤ d.month ∧ d.month ≤ 12 ∧ 1 ≤ d.day ∧ d.day ≤ daysInMonth d.year d.month

instance (d : Date) : Decidable d.valid := by
  unfold Date.valid; infer_instance

/-- Successor day in the calendar. -/
def nextDay (d : Date) : Date :=
  if d.day < daysInMonth d.year d.month then ⟨d.year, d.month, d.day + 1⟩
  else if d.month < 12 then ⟨d.year, d.month + 1, 1⟩
  else ⟨d.year + 1, 1, 1⟩

/-- `d + timedelta(days := n)`. -/
def addDays : Nat → Date → Date
  | 0, d => d
  | n + 1, d => addDays n (nextDay d)

/-- Predecessor day in the calendar (used for `now - timedelta(days)`). -/
def prevDay (d : Date) : Date :=
  if 1 < d.day then ⟨d.year, d.month, d.day - 1⟩
  else if 1 < d.month then ⟨d.year, d.month - 1, daysInMonth d.year (d.month - 1)⟩
  else ⟨d.year - 1, 12, 31⟩

/-- `d - timedelta(days := n)`. -/
def subDays : Nat → Date → Date
  | 0, d => d
  | n + 1, d => subDays n (prevDay d)

/-- Lexicographic `≤` on dates (BSON datetime comparison). -/
def Date.ble (a b : Date) : Bool :=
  a.year < b.year ||
    (a.year == b.year &&
      (a.month < b.month || (a.month == b.month && a.day ≤ b.day)))

/-- Lexicographic `<` on dates. -/
def Date.blt (a b : Date) : Bool :=
  a.year < b.year ||
    (a.year == b.year &&
      (a.month < b.month || (a.month == b.month && a.day < b.day)))

/-- Python `date.replace(year := y, month := m)`: keeps the day, raising
`ValueError` (modeled as `Except.error`) when the result is not a valid
date. -/
def tryReplace (d : Date) (y m : Nat) : Except Unit Date :=
  if 1 ≤ m ∧ m ≤ 12 ∧ 1 ≤ d.day ∧ d.day ≤ daysInMonth y m then
    Except.ok ⟨y, m, d.day⟩
  else Except.error ()

/-- `calculate_next_occurrence` from server.py.  Returns `ok none` for the
`none` cadence (Python `None`), `ok (some d)` for a computed date, and
`error` when `datetime.replace` would raise `ValueError`. -/
def calculate_next_occurrence (date : Date) (recurrence_type : RecurrenceType) :
    Except Unit (Option Date) :=
  match recurrence_type with
  | RecurrenceType.none => Except.ok Option.none
  | RecurrenceType.daily => Except.ok (some (addDays 1 date))
  | RecurrenceType.weekly => Except.ok (some (addDays 7 date))
  | RecurrenceType.monthly =>
      if date.month = 12 then (tryReplace date (date.year + 1) 1).map some
      else (tryReplace date date.year (date.month + 1)).map some
  | RecurrenceType.yearly => (tryReplace date (date.year + 1) date.month).map some

/-- Python `round(x, 2)` on exact rationals: round to the nearest
hundredth (tie behavior is immaterial to every claim considered, none of
which evaluates `round` at a tie). -/
def round2 (x : ℚ) : ℚ := (round (x * 100) : ℤ) / 100

/-- The fixed `CURRENCY_RATES` dictionary from server.py. -/
def CURRENCY_RATES : Currency × Currency → Option ℚ
  | (Currency.USD, Currency.INR) => some (167 / 2)   -- 83.50
  | (Currency.INR, Currency.USD) => some (3 / 250)   -- 0.012
  | (Currency.USD, Currency.USD) => some 1
  | (Currency.INR, Currency.INR) => some 1

/-- `CURRENCY_RATES.get(p, 1.0)`. -/
def rateOrOne (p : Currency × Currency) : ℚ := (CURRENCY_RATES p).getD 1

/-- `convert_currency` from server.py.  `if rate:` in Python treats both a
missing rate and a 0.0 rate as falsy, hence the two fallback branches. -/
def convert_currency (amount : ℚ) (from_currency to_currency : Currency) : ℚ :=
  if from_currency = to_currency then amount
  else
    match CURRENCY_RATES (from_currency, to_currency) with
    | some rate =>
        if rate = 0 then
          round2 (amount * rateOrOne (from_currency, Currency.USD) *
            rateOrOne (Currency.USD, to_currency))
        else round2 (amount * rate)
    | Option.none =>
        round2 (amount * rateOrOne (from_currency, Currency.USD) *
          rateOrOne (Currency.USD, to_currency))

/-- A "YYYY-MM" month string, parsed into its two numeric components
(`datetime.strptime(month + "-01", "%Y-%m-%d")` succeeds exactly on such
strings). -/
structure MonthKey where
  year : Nat
  month : Nat
deriving DecidableEq, Repr

/-- `datetime.strptime(budget.month + "-01", "%Y-%m-%d")`: the first day
of the month. -/
def monthStart (m : MonthKey) : Date := ⟨m.year, m.month, 1⟩

/-- The first day of the following month, exactly as server.py computes
it (`replace(year+1, month=1)` when the month is December, else
`replace(month+1)`). -/
def monthEnd (m : MonthKey) : Date :=
  if m.month = 12 then ⟨m.year + 1, 1, 1⟩ else ⟨m.year, m.month + 1, 1⟩

/-- Stored `Transaction` document from server.py.  UUIDs are modeled as
abstract numeric identifiers. -/
structure Transaction where
  id : Nat
  user_id : Nat
  type : TransactionType
  category : TransactionCategory
  amount : ℚ
  currency : Currency
  description : String
  date : Date
  tags : List String
  is_recurring : Bool
  recurrence_type : RecurrenceType
  next_occurrence : Option Date
  created_at : Date
deriving DecidableEq, Repr

/-- `TransactionCreate` request body from server.py. -/
structure TransactionCreate where
  type : TransactionType
  category : TransactionCategory
  amount : ℚ
  currency : Currency
  description : String
  date : Option Date
  tags : List String
  is_recurring : Bool
  recurrence_type : RecurrenceType
deriving DecidableEq, Repr

/-- Stored `Budget` document from server.py. -/
structure Budget where
  id : Nat
  user_id : Nat
  category : TransactionCategory
  budget_amount : ℚ
  currency : Currency
  month : MonthKey
  created_at : Date
deriving DecidableEq, Repr

/-- `BudgetCreate` request body from server.py. -/
structure BudgetCreate where
  category : TransactionCategory
  budget_amount : ℚ
  currency : Currency
  month : MonthKey
deriving DecidableEq, Repr

/-- The two Mongo collections the handlers touch, as lists in insertion
("natural") order. -/
structure Db where
  transactions : List Transaction
  budgets : List Budget
deriving DecidableEq, Repr

/-- Mongo `update_one`: rewrites the first document matching the
predicate, leaving the rest untouched. -/
def updateFirst (p : α → Bool) (f : α → α) : List α → List α
  | [] => []
  | x :: xs => if p x then f x :: xs else x :: updateFirst p f xs

/-- Mongo `delete_one`: removes the first document matching the
predicate; `none` when no document matches (`deleted_count == 0`). -/
def removeFirst (p : α → Bool) : List α → Option (List α)
  | [] => Option.none
  | x :: xs =>
      if p x then some xs
      else (removeFirst p xs).map (x :: ·)

/-- Key list of a Mongo `$group` stage (equally, of iterating a Python
dict built by repeated `get`/insert): each distinct key once, in first
encounter order. -/
def groupKeys [DecidableEq κ] : List κ → List κ → List κ
  | [], _ => []
  | k :: rest, seen =>
      if k ∈ seen then groupKeys rest seen
      else k :: groupKeys rest (k :: seen)

/-- Stable insertion used by `sortBy`: the new element goes after every
element `y` with `le y x`. -/
def insertBy (le : α → α → Bool) (x : α) : List α → List α
  | [] => [x]
  | y :: ys => if le y x then y :: insertBy le x ys else x :: y :: ys

/-- Stable sort (models Mongo `$sort` and Python `sorted`, both
stable). -/
def sortBy (le : α → α → Bool) (l : List α) : List α :=
  l.foldl (fun acc x => insertBy le x acc) []

/-- Sum of the `amount` field over a list of transactions. -/
def sumAmounts (l : List Transaction) : ℚ := (l.map Transaction.amount).sum

/-- Zero-padded two-digit rendering, as in `f"{m:02d}"`. -/
def pad2 (n : Nat) : String := if n < 10 then "0" ++ toString n else toString n

/-- `t.date.strftime("%Y-%m-%d")`. -/
def dateStr (d : Date) : String :=
  toString d.year ++ "-" ++ pad2 d.month ++ "-" ++ pad2 d.day

/-- `create_transaction` handler: builds the stored document.  The fresh
UUID and `datetime.utcnow()` are the `newId` / `now` parameters.  A
recurring request whose `calculate_next_occurrence` raises `ValueError`
makes the whole request fail before anything is stored. -/
def create_transaction (req : TransactionCreate) (userId newId : Nat) (now : Date) :
    Except Unit Transaction := do
  let transaction_date := req.date.getD now
  let next_occurrence ←
    if req.is_recurring ∧ req.recurrence_type ≠ RecurrenceType.none then
      calculate_next_occurrence transaction_date req.recurrence_type
    else pure Option.none
  Except.ok
    { id := newId
      user_id := userId
      type := req.type
      category := req.category
      amount := req.amount
      currency := req.currency
      description := req.description
      date := transaction_date
      tags := req.tags
      is_recurring := req.is_recurring
      recurrence_type := req.recurrence_type
      next_occurrence := next_occurrence
      created_at := now }

/-- `create_transaction` including the `insert_one` into the store. -/
def create_transaction_db (db : Db) (req : TransactionCreate)
    (userId newId : Nat) (now : Date) : Except Unit (Db × Transaction) := do
  let t ← create_transaction req userId newId now
  Except.ok ({ db with transactions := db.transactions ++ [t] }, t)

/-- `get_transactions` handler: the user's transactions sorted by date
descending, capped at 1000 (`to_list(1000)`). -/
def get_transactions (db : Db) (userId : Nat) : List Transaction :=
  (sortBy (fun a b => Date.ble b.date a.date)
    (db.transactions.filter (fun t => t.user_id == userId))).take 1000

/-- `SearchFilters` request body from server.py. -/
structure SearchFilters where
  query : Option String
  category : Option TransactionCategory
  type : Option TransactionType
  start_date : Option Date
  end_date : Option Date
  min_amount : Option ℚ
  max_amount : Option ℚ
  tags : List String
deriving DecidableEq, Repr

/-- The Mongo predicate `search_transactions` assembles.  Each optional
filter is skipped when absent (and, mirroring Python truthiness on the
amounts, `min_amount`/`max_amount` equal to 0 would also be skipped —
irrelevant here since both sides then hold trivially or the bound is
absent; we model the `None` checks the code performs). -/
def matchesFilters (f : SearchFilters) (t : Transaction) : Bool :=
  (match f.category with | some c => t.category == c | Option.none => true) &&
  (match f.type with | some ty => t.type == ty | Option.none => true) &&
  (match f.start_date with | some d => Date.ble d t.date | Option.none => true) &&
  (match f.end_date with | some d => Date.ble t.date d | Option.none => true) &&
  (match f.min_amount with | some a => decide (a ≤ t.amount) | Option.none => true) &&
  (match f.max_amount with | some a => decide (t.amount ≤ a) | Option.none => true) &&
  (f.tags == [] || t.tags.any (fun tg => f.tags.contains tg)) &&
  (match f.query with | some q => (t.description.splitOn q).length != 1 | Option.none => true)

/-- `search_transactions` handler (the `$regex` substring match is
modeled as a case-sensitive substring test; case folding is irrelevant to
the isolation property proved about it). -/
def search_transactions (db : Db) (userId : Nat) (f : SearchFilters) :
    List Transaction :=
  (sortBy (fun a b => Date.ble b.date a.date)
    (db.transactions.filter (fun t => t.user_id == userId && matchesFilters f t))).take 1000

/-- `delete_transaction` handler: `delete_one({"id": tid, "user_id":
uid})`, HTTP 404 when nothing was deleted.  Returns the store after the
call together with the outcome. -/
def delete_transaction (db : Db) (userId tid : Nat) : Db × Except Unit Unit :=
  match removeFirst (fun t => t.id == tid && t.user_id == userId) db.transactions with
  | some txs => ({ db with transactions := txs }, Except.ok ())
  | Option.none => (db, Except.error ())

/-- The `$set` document `update_transaction` builds: exactly type,
category, amount, description and date (`transaction.date or
datetime.utcnow()`). -/
def applyUpdate (req : TransactionCreate) (now : Date) (t : Transaction) : Transaction :=
  { t with
      type := req.type
      category := req.category
      amount := req.amount
      description := req.description
      date := req.date.getD now }

/-- `update_transaction` handler: 404 unless a document matches `(id,
user_id)`; otherwise `update_one` on that predicate, then the response is
re-read with `find_one({"id": tid})` (no user filter on the re-read). -/
def update_transaction (db : Db) (userId tid : Nat) (req : TransactionCreate)
    (now : Date) : Except Unit (Db × Transaction) :=
  match db.transactions.find? (fun t => t.id == tid && t.user_id == userId) with
  | Option.none => Except.error ()
  | some _ =>
      let txs := updateFirst (fun t => t.id == tid && t.user_id == userId)
        (applyUpdate req now) db.transactions
      match txs.find? (fun t => t.id == tid) with
      | some u => Except.ok ({ db with transactions := txs }, u)
      | Option.none => Except.error ()

/-- The existing-budget lookup in `create_budget`: `find_one` on
`user_id`, `category` and `month` — note the request's currency is NOT
part of the lookup. -/
def find_budget (budgets : List Budget) (userId : Nat) (cat : TransactionCategory)
    (m : MonthKey) : Option Budget :=
  budgets.find? (fun b => b.user_id == userId && b.category == cat && b.month == m)

/-- The spent-amount query of `create_budget`: the user's expense
transactions of the category inside `[monthStart, monthEnd)` — with no
currency condition — capped by `to_list(1000)`. -/
def spentNoCurrency (txs : List Transaction) (userId : Nat)
    (cat : TransactionCategory) (m : MonthKey) : ℚ :=
  sumAmounts ((txs.filter (fun t =>
    t.user_id == userId && t.category == cat &&
    t.type == TransactionType.expense &&
    Date.ble (monthStart m) t.date && Date.blt t.date (monthEnd m))).take 1000)

/-- The spent-amount query of `get_budget_progress`: as above but also
filtered on the budget's currency. -/
def spentWithCurrency (txs : List Transaction) (userId : Nat)
    (cat : TransactionCategory) (cur : Currency) (m : MonthKey) : ℚ :=
  sumAmounts ((txs.filter (fun t =>
    t.user_id == userId && t.category == cat &&
    t.type == TransactionType.expense && t.currency == cur &&
    Date.ble (monthStart m) t.date && Date.blt t.date (monthEnd m))).take 1000)

/-- `BudgetResponse` model from server.py (lines 109-117).  Every field
is required: none declares a default. -/
structure BudgetResponse where
  id : Nat
  category : TransactionCategory
  budget_amount : ℚ
  currency : Currency
  month : MonthKey
  spent_amount : ℚ
  remaining_amount : ℚ
  percentage_used : ℚ
deriving DecidableEq, Repr

/-- Pydantic construction of a `BudgetResponse`: each keyword argument
the caller supplies is `some`, an omitted one is `none`, and validation
raises `ValidationError` (modeled as `Except.error`) unless every
required field was supplied. -/
def BudgetResponse.construct (id : Option Nat)
    (category : Option TransactionCategory) (budget_amount : Option ℚ)
    (currency : Option Currency) (month : Option MonthKey)
    (spent_amount remaining_amount percentage_used : Option ℚ) :
    Except Unit BudgetResponse :=
  match id, category, budget_amount, currency, month,
      spent_amount, remaining_amount, percentage_used with
  | some a, some b, some c, some d, some e, some f, some g, some h =>
      Except.ok ⟨a, b, c, d, e, f, g, h⟩
  | _, _, _, _, _, _, _, _ => Except.error ()

/-- `create_budget` handler.  Looks up an existing budget by `(user_id,
category, month)`; if found, `update_one({"id": existing.id})` sets the
new amount, else a fresh `Budget` document is inserted — built without a
`currency` argument, so it stores the model default `INR` whatever the
request's currency is.  Then the spent amount for the month window is
computed (without a currency filter) and the handler builds its
`BudgetResponse` — passing NO `currency` argument (server.py:587-595
versus the required field at line 113), so pydantic validation fails:
every call raises after the store was already mutated.  The returned
pair carries the (committed) store and the always-failing response. -/
def create_budget (db : Db) (req : BudgetCreate) (userId newId : Nat)
    (now : Date) : Db × Except Unit BudgetResponse :=
  let (budgets, respId, respAmount) :=
    match find_budget db.budgets userId req.category req.month with
    | some existing =>
        (updateFirst (fun b => b.id == existing.id)
          (fun b => { b with budget_amount := req.budget_amount }) db.budgets,
         existing.id, req.budget_amount)
    | Option.none =>
        (db.budgets ++
          [{ id := newId, user_id := userId, category := req.category,
             budget_amount := req.budget_amount, currency := Currency.INR,
             month := req.month, created_at := now }],
         newId, req.budget_amount)
  let spent_amount := spentNoCurrency db.transactions userId req.category req.month
  let remaining_amount := req.budget_amount - spent_amount
  let percentage_used :=
    if req.budget_amount > 0 then spent_amount / req.budget_amount * 100 else 0
  ({ db with budgets := budgets },
   BudgetResponse.construct (some respId) (some req.category) (some respAmount)
     Option.none (some req.month) (some spent_amount) (some remaining_amount)
     (some percentage_used))

/-- One entry of the `get_budget_progress` response. -/
structure ProgressEntry where
  category : TransactionCategory
  budget_amount : ℚ
  spent_amount : ℚ
  remaining_amount : ℚ
  percentage_used : ℚ
  currency : Currency
  status : String
deriving DecidableEq, Repr

/-- The status conditional of `get_budget_progress`, verbatim. -/
def statusOf (percentage_used : ℚ) : String :=
  if percentage_used > 100 then "over_budget"
  else if percentage_used < 80 then "on_track"
  else "warning"

/-- `get_budget_progress` handler: the user's budgets for the month
(`to_list(100)`), each with the spent amount of its` (category, currency)`
over the `[first-of-month, first-of-next-month)` window, the remaining
amount, the percentage used (emitted rounded to 2 decimals) and the
status classification (computed on the unrounded percentage). -/
def get_budget_progress (db : Db) (userId : Nat) (m : MonthKey) :
    List ProgressEntry :=
  ((db.budgets.filter (fun b => b.user_id == userId && b.month == m)).take 100).map
    (fun b =>
      let spent_amount :=
        spentWithCurrency db.transactions userId b.category b.currency m
      let percentage_used :=
        if b.budget_amount > 0 then spent_amount / b.budget_amount * 100 else 0
      { category := b.category
        budget_amount := b.budget_amount
        spent_amount := spent_amount
        remaining_amount := b.budget_amount - spent_amount
        percentage_used := round2 percentage_used
        currency := b.currency
        status := statusOf percentage_used })

/-- The due predicate of `process_recurring_transactions`:
`is_recurring == True` and `next_occurrence <= now` (a missing/None
`next_occurrence` never matches the BSON `$lte`). -/
def isDue (now : Date) (t : Transaction) : Bool :=
  t.is_recurring &&
    (match t.next_occurrence with
     | some d => Date.ble d now
     | Option.none => false)

/-- The materialized transaction `process_recurring_transactions` builds
from a due original: note `currency` is NOT among the copied fields, so
the new document stores the model default `INR`. -/
def materialize (newId : Nat → Nat) (now : Date) (t : Transaction) : Transaction :=
  { id := newId t.id
    user_id := t.user_id
    type := t.type
    category := t.category
    amount := t.amount
    currency := Currency.INR
    description := t.description ++ " (Auto-generated)"
    date := t.next_occurrence.getD now
    tags := t.tags
    is_recurring := false
    recurrence_type := RecurrenceType.none
    next_occurrence := Option.none
    created_at := now }

/-- The per-item loop of `process_recurring_transactions`: for each due
(snapshotted) transaction, append its materialized copy and
`update_one({"id": ...})` the original's `next_occurrence` to
`calculate_next_occurrence(old next_occurrence, recurrence_type)`.  A
`ValueError` from the calculator aborts the request. -/
def processLoop (newId : Nat → Nat) (now : Date) (store : List Transaction) :
    List Transaction → Except Unit (List Transaction × List Transaction)
  | [] => Except.ok (store, [])
  | t :: rest => do
      let nv ← calculate_next_occurrence (t.next_occurrence.getD now) t.recurrence_type
      let store1 := updateFirst (fun s => s.id == t.id)
        (fun s => { s with next_occurrence := nv }) store
      let (store2, fresh) ← processLoop newId now store1 rest
      Except.ok (store2, materialize newId now t :: fresh)

/-- `process_recurring_transactions` handler: snapshot the due list
(`to_list(1000)`), run the loop, then `insert_many` the materialized
transactions at the end.  Returns the new store and the processed
count. -/
def process_recurring_transactions (db : Db) (newId : Nat → Nat) (now : Date) :
    Except Unit (Db × Nat) := do
  let due := (db.transactions.filter (isDue now)).take 1000
  let (store, fresh) ← processLoop newId now db.transactions due
  Except.ok ({ db with transactions := store ++ fresh }, fresh.length)

/-- The value `process_recurring_transactions` writes into the original's
`next_occurrence`: the calculator applied to the old `next_occurrence`
(not to now) and the stored `recurrence_type`.  The error fallback is
never reached on a successful run (a calculator fault aborts the whole
request). -/
def nextOccValue (now : Date) (t : Transaction) : Option Date :=
  match calculate_next_occurrence (t.next_occurrence.getD now) t.recurrence_type with
  | Except.ok v => v
  | Except.error _ => t.next_occurrence

/-- Income sum of a transaction group. -/
def incomeOf (g : List Transaction) : ℚ :=
  sumAmounts (g.filter (fun t => t.type == TransactionType.income))

/-- Expense sum of a transaction group. -/
def expenseOf (g : List Transaction) : ℚ :=
  sumAmounts (g.filter (fun t => t.type == TransactionType.expense))

/-- `MonthlySummary` response model. -/
structure MonthlySummary where
  month : String
  year : Nat
  total_income : ℚ
  total_expense : ℚ
  net_amount : ℚ
  transactions_count : Nat
deriving DecidableEq, Repr

/-- Descending `(year, month)` comparison for the monthly-summary
`$sort`. -/
def ymDesc (a b : Nat × Nat) : Bool :=
  b.1 < a.1 || (b.1 == a.1 && b.2 ≤ a.2)

/-- `get_monthly_summary` handler: the user's transactions grouped by
`(year, month)`, each group summed by type, sorted year/month descending,
capped at the first 12 groups (`to_list(12)`). -/
def get_monthly_summary (db : Db) (userId : Nat) : List MonthlySummary :=
  let txs := db.transactions.filter (fun t => t.user_id == userId)
  ((sortBy ymDesc (groupKeys (txs.map (fun t => (t.date.year, t.date.month))) [])).take 12).map
    (fun k =>
      let group := txs.filter (fun t => t.date.year == k.1 && t.date.month == k.2)
      let total_income := incomeOf group
      let total_expense := expenseOf group
      { month := toString k.1 ++ "-" ++ pad2 k.2
        year := k.1
        total_income := total_income
        total_expense := total_expense
        net_amount := total_income - total_expense
        transactions_count := group.length })

/-- `DailyTrend` response model. -/
structure DailyTrend where
  date : String
  income : ℚ
  expense : ℚ
  net : ℚ
deriving DecidableEq, Repr

/-- Ascending `(year, month, day)` comparison. -/
def ymdAsc (a b : Nat × Nat × Nat) : Bool :=
  a.1 < b.1 || (a.1 == b.1 &&
    (a.2.1 < b.2.1 || (a.2.1 == b.2.1 && a.2.2 ≤ b.2.2)))

/-- `get_daily_trends` handler: the user's transactions in
`[now - days, now]` grouped by calendar day, income/expense summed per
day, sorted ascending, capped at `days` results (`to_list(days)`). -/
def get_daily_trends (db : Db) (userId : Nat) (days : Nat) (now : Date) :
    List DailyTrend :=
  let start := subDays days now
  let txs := db.transactions.filter (fun t =>
    t.user_id == userId && Date.ble start t.date && Date.ble t.date now)
  ((sortBy ymdAsc (groupKeys (txs.map (fun t => (t.date.year, t.date.month, t.date.day))) [])).take days).map
    (fun k =>
      let group := txs.filter (fun t =>
        t.date.year == k.1 && t.date.month == k.2.1 && t.date.day == k.2.2)
      let income := incomeOf group
      let expense := expenseOf group
      { date := toString k.1 ++ "-" ++ pad2 k.2.1 ++ "-" ++ pad2 k.2.2
        income := income
        expense := expense
        net := income - expense })

/-- A `{"INR": ..., "USD": ...}` dictionary. -/
structure ByCurrency where
  INR : ℚ
  USD : ℚ
deriving DecidableEq, Repr

/-- Field selection on a `ByCurrency` dictionary. -/
def ByCurrency.get (m : ByCurrency) : Currency → ℚ
  | Currency.INR => m.INR
  | Currency.USD => m.USD

/-- `FinancialInsights` response model (the `monthly_comparison` field is
the constant empty dict in the source and is omitted; top spending
categories are kept as structured triples rather than the source's
rendered strings). -/
structure FinancialInsights where
  total_income : ByCurrency
  total_expense : ByCurrency
  net_amount : ByCurrency
  top_spending_categories : List ((TransactionCategory × Currency) × ℚ)
  spending_trend : String
  average_daily_expense : ByCurrency
  highest_expense_day : Option String
  savings_rate : ℚ
deriving DecidableEq, Repr

/-- Python `max(keys, key := val)` over a nonempty key list: the first
key of maximal value (later keys replace the running maximum only when
strictly greater). -/
def argmaxBy (val : κ → ℚ) : List κ → Option κ
  | [] => Option.none
  | k :: rest =>
      match argmaxBy val rest with
      | Option.none => some k
      | some m => if val m > val k then some m else some k

/-- The body of `get_financial_insights`, for `days ≠ 0` (at `days = 0`
the handler raises `ZeroDivisionError` at the average-daily-expense
division before returning; see `get_financial_insights`). -/
def insightsCore (db : Db) (userId : Nat) (days : Nat) (now : Date) :
    FinancialInsights :=
  let start := subDays days now
  let txs := (db.transactions.filter (fun t =>
    t.user_id == userId && Date.ble start t.date && Date.ble t.date now)).take 1000
  let income_by_currency : ByCurrency :=
    { INR := sumAmounts (txs.filter (fun t =>
        t.type == TransactionType.income && t.currency == Currency.INR))
      USD := sumAmounts (txs.filter (fun t =>
        t.type == TransactionType.income && t.currency == Currency.USD)) }
  let expense_by_currency : ByCurrency :=
    { INR := sumAmounts (txs.filter (fun t =>
        t.type != TransactionType.income && t.currency == Currency.INR))
      USD := sumAmounts (txs.filter (fun t =>
        t.type != TransactionType.income && t.currency == Currency.USD)) }
  let expenses := txs.filter (fun t => t.type == TransactionType.expense)
  let catKeys := groupKeys (expenses.map (fun t => (t.category, t.currency))) []
  let category_spending := catKeys.map (fun k =>
    (k, sumAmounts (expenses.filter (fun t => (t.category, t.currency) == k))))
  let top_categories :=
    (sortBy (fun a b => b.2 ≤ a.2) category_spending).take 5
  let mid_point := txs.length / 2
  let first_half_expense := expenseOf (txs.take mid_point)
  let second_half_expense := expenseOf (txs.drop mid_point)
  let trend :=
    if second_half_expense > first_half_expense * (11 / 10) then "increasing"
    else if second_half_expense < first_half_expense * (9 / 10) then "decreasing"
    else "stable"
  let dayKeys := groupKeys (expenses.map (fun t => dateStr t.date)) []
  let dayTotal := fun s =>
    sumAmounts (expenses.filter (fun t => dateStr t.date == s))
  let total_income := income_by_currency.INR +
    convert_currency income_by_currency.USD Currency.USD Currency.INR
  let total_expense := expense_by_currency.INR +
    convert_currency expense_by_currency.USD Currency.USD Currency.INR
  let savings_rate :=
    if total_income > 0 then (total_income - total_expense) / total_income * 100 else 0
  { total_income := income_by_currency
    total_expense := expense_by_currency
    net_amount :=
      { INR := income_by_currency.INR - expense_by_currency.INR
        USD := income_by_currency.USD - expense_by_currency.USD }
    top_spending_categories := top_categories
    spending_trend := trend
    average_daily_expense :=
      { INR := expense_by_currency.INR / days
        USD := expense_by_currency.USD / days }
    highest_expense_day := argmaxBy dayTotal dayKeys
    savings_rate := round2 savings_rate }

/-- `get_financial_insights` handler: Python performs
`expense_by_currency[c] / days` with no zero guard, so a call with
`days = 0` raises `ZeroDivisionError` (modeled as `Except.error`). -/
def get_financial_insights (db : Db) (userId : Nat) (days : Nat) (now : Date) :
    Except Unit FinancialInsights :=
  if days = 0 then Except.error ()
  else Except.ok (insightsCore db userId days now)

/-- `CategoryChartData` response model. -/
structure CategoryChartData where
  category : TransactionCategory
  type : TransactionType
  total_amount : ℚ
  currency : Currency
  percentage : ℚ
  transactions_count : Nat
deriving DecidableEq, Repr

/-- The `$group` stage of `get_category_breakdown`: the current-month
(`date >= first-of-month`) transactions of the user grouped by
`(category, type, currency)`, with sum and count, capped at 100 groups
(`to_list(100)`). -/
def breakdownGroups (db : Db) (userId : Nat) (now : Date) :
    List ((TransactionCategory × TransactionType × Currency) × ℚ × Nat) :=
  let som : Date := ⟨now.year, now.month, 1⟩
  let txs := db.transactions.filter (fun t =>
    t.user_id == userId && Date.ble som t.date)
  ((groupKeys (txs.map (fun t => (t.category, t.type, t.currency))) []).map
    (fun k =>
      let g := txs.filter (fun t => (t.category, t.type, t.currency) == k)
      (k, sumAmounts g, g.length))).take 100

/-- `total_by_type_currency[f"{type}_{currency}"]` in
`get_category_breakdown`. -/
def bucketTotal
    (groups : List ((TransactionCategory × TransactionType × Currency) × ℚ × Nat))
    (ty : TransactionType) (cur : Currency) : ℚ :=
  ((groups.filter (fun g => g.1.2.1 == ty && g.1.2.2 == cur)).map (fun g => g.2.1)).sum

/-- `get_category_breakdown` handler: each group's percentage of its
`(type, currency)` bucket total, 0 when that total is not positive,
rounded to 2 decimals. -/
def get_category_breakdown (db : Db) (userId : Nat) (now : Date) :
    List CategoryChartData :=
  let groups := breakdownGroups db userId now
  groups.map (fun g =>
    let total := bucketTotal groups g.1.2.1 g.1.2.2
    { category := g.1.1
      type := g.1.2.1
      total_amount := g.2.1
      currency := g.1.2.2
      percentage := round2 (if total > 0 then g.2.1 / total * 100 else 0)
      transactions_count := g.2.2 })

/-- Day of week with Sunday as 0 (Sakamoto's method), for the Mongo
`$week` operator. -/
def dayOfWeek (y m d : Nat) : Nat :=
  let t := [0, 3, 2, 5, 0, 3, 5, 1, 4, 6, 2, 4]
  let y1 := if m < 3 then y - 1 else y
  (y1 + y1 / 4 - y1 / 100 + y1 / 400 + t.getD (m - 1) 0 + d) % 7

/-- Ordinal day of the year (1-based). -/
def dayOfYear (d : Date) : Nat :=
  (List.range (d.month - 1)).foldl (fun acc i => acc + daysInMonth d.year (i + 1)) 0 + d.day

/-- Mongo `$week`: week of the year, weeks starting on Sunday, days
before the first Sunday in week 0. -/
def mongoWeek (d : Date) : Nat :=
  (dayOfYear d + 6 - dayOfWeek d.year d.month d.day) / 7

/-- One data point of the spending-trends response. -/
structure TrendPoint where
  date : String
  income : ℚ
  expense : ℚ
  net : ℚ
  currency : Currency
deriving DecidableEq, Repr

/-- `SpendingTrendData` response model. -/
structure SpendingTrendData where
  period : String
  data : List TrendPoint
deriving DecidableEq, Repr

/-- Ascending comparison on `(year, month/week)` ignoring the currency
component, as in the weekly/monthly `$sort` stages. -/
def ywAsc (a b : Nat × Nat × Currency) : Bool :=
  a.1 < b.1 || (a.1 == b.1 && a.2.1 ≤ b.2.1)

/-- Ascending comparison on `(year, month, day)` ignoring the currency
component, as in the daily `$sort` stage. -/
def ymdcAsc (a b : Nat × Nat × Nat × Currency) : Bool :=
  a.1 < b.1 || (a.1 == b.1 &&
    (a.2.1 < b.2.1 || (a.2.1 == b.2.1 && a.2.2.1 ≤ b.2.2.1)))

/-- `get_spending_trends` handler.  The `daily` and `weekly` period
strings select their pipelines; every other string (including any bogus
value) takes the `else` branch, i.e. the monthly grouping.  The response
echoes the caller's `period` string verbatim. -/
def get_spending_trends (db : Db) (userId : Nat) (period : String) (days : Nat)
    (now : Date) : SpendingTrendData :=
  let start := subDays days now
  let txs := db.transactions.filter (fun t =>
    t.user_id == userId && Date.ble start t.date && Date.ble t.date now)
  let data :=
    if period = "daily" then
      ((sortBy ymdcAsc (groupKeys (txs.map (fun t =>
          (t.date.year, t.date.month, t.date.day, t.currency))) [])).take 100).map
        (fun k =>
          let g := txs.filter (fun t =>
            t.date.year == k.1 && t.date.month == k.2.1 &&
            t.date.day == k.2.2.1 && t.currency == k.2.2.2)
          let income := incomeOf g
          let expense := expenseOf g
          { date := toString k.1 ++ "-" ++ pad2 k.2.1 ++ "-" ++ pad2 k.2.2.1
            income := income, expense := expense, net := income - expense
            currency := k.2.2.2 })
    else if period = "weekly" then
      ((sortBy ywAsc (groupKeys (txs.map (fun t =>
          (t.date.year, mongoWeek t.date, t.currency))) [])).take 100).map
        (fun k =>
          let g := txs.filter (fun t =>
            t.date.year == k.1 && mongoWeek t.date == k.2.1 && t.currency == k.2.2)
          let income := incomeOf g
          let expense := expenseOf g
          { date := toString k.1 ++ "-W" ++ pad2 k.2.1
            income := income, expense := expense, net := income - expense
            currency := k.2.2 })
    else
      ((sortBy ywAsc (groupKeys (txs.map (fun t =>
          (t.date.year, t.date.month, t.currency))) [])).take 100).map
        (fun k =>
          let g := txs.filter (fun t =>
            t.date.year == k.1 && t.date.month == k.2.1 && t.currency == k.2.2)
          let income := incomeOf g
          let expense := expenseOf g
          { date := toString k.1 ++ "-" ++ pad2 k.2.1
            income := income, expense := expense, net := income - expense
            currency := k.2.2 })
  { period := period, data := data }

/-! ### Shared lemmas about the embedding's list and rounding helpers -/

theorem mem_insertBy {le : α → α → Bool} (x a : α) (l : List α) :
    a ∈ insertBy le x l ↔ a = x ∨ a ∈ l := by
  induction l with
  | nil => simp [insertBy]
  | cons y ys ih =>
      unfold insertBy
      by_cases h : le y x = true
      · simp only [if_pos h, List.mem_cons, ih]
        tauto
      · simp [if_neg h]

theorem mem_sortBy {le : α → α → Bool} (a : α) (l : List α) :
    a ∈ sortBy le l ↔ a ∈ l := by
  suffices h : ∀ acc : List α,
      (a ∈ l.foldl (fun acc x => insertBy le x acc) acc ↔ a ∈ acc ∨ a ∈ l) by
    simpa [sortBy] using h []
  induction l with
  | nil => intro acc; simp
  | cons x xs ih =>
      intro acc
      simp only [List.foldl_cons, ih, mem_insertBy, List.mem_cons]
      tauto

theorem find?_mem_unique {p : α → Bool} {l : List α} {t : α} (hmem : t ∈ l)
    (hp : p t = true) (huniq : ∀ a ∈ l, p a = true → a = t) :
    l.find? p = some t := by
  induction l with
  | nil => cases hmem
  | cons x xs ih =>
      by_cases hx : p x = true
      · have hxt : x = t := huniq x (List.mem_cons_self x xs) hx
        subst hxt
        exact List.find?_cons_of_pos xs hx
      · have hmem2 : t ∈ xs := by
          rcases List.mem_cons.mp hmem with h | h
          · exact absurd (h ▸ hp) hx
          · exact h
        rw [List.find?_cons_of_neg xs hx]
        exact ih hmem2 (fun a ha hpa => huniq a (List.mem_cons_of_mem _ ha) hpa)

theorem updateFirst_eq_map {p : α → Bool} {f : α → α} {l : List α}
    (h : l.countP p ≤ 1) :
    updateFirst p f l = l.map (fun s => if p s then f s else s) := by
  induction l with
  | nil => rfl
  | cons x xs ih =>
      by_cases hx : p x = true
      · have h0 : xs.countP p = 0 := by
          rw [List.countP_cons_of_pos p xs hx] at h
          omega
        have hall : ∀ a ∈ xs, ¬p a = true := List.countP_eq_zero.mp h0
        have hxs : xs.map (fun s => if p s then f s else s) = xs := by
          have h2 : xs.map (fun s => if p s then f s else s) = xs.map id :=
            List.map_congr_left (fun a ha => by simp [hall a ha])
          rw [h2, List.map_id]
        simp [updateFirst, hx, hxs]
      · have h2 : xs.countP p ≤ 1 := by
          rw [List.countP_cons_of_neg p xs hx] at h
          exact h
        simp [updateFirst, hx, ih h2]

theorem map_updateFirst {p : α → Bool} {f : α → α} {g : α → β} {l : List α}
    (hg : ∀ x, g (f x) = g x) : (updateFirst p f l).map g = l.map g := by
  induction l with
  | nil => rfl
  | cons x xs ih =>
      by_cases hx : p x = true
      · simp [updateFirst, hx, hg]
      · simp [updateFirst, hx, ih]

theorem updateFirst_append_left {p : α → Bool} {f : α → α} {l1 l2 : List α}
    (h : ∀ a ∈ l1, ¬p a = true) :
    updateFirst p f (l1 ++ l2) = l1 ++ updateFirst p f l2 := by
  induction l1 with
  | nil => rfl
  | cons x xs ih =>
      have hx : ¬p x = true := h x (List.mem_cons_self x xs)
      simp only [List.cons_append, updateFirst, if_neg hx]
      exact congrArg (x :: ·) (ih (fun a ha => h a (List.mem_cons_of_mem _ ha)))

theorem removeFirst_eq_none {p : α → Bool} {l : List α}
    (h : ∀ a ∈ l, ¬p a = true) : removeFirst p l = Option.none := by
  induction l with
  | nil => rfl
  | cons x xs ih =>
      have hx : ¬p x = true := h x (List.mem_cons_self x xs)
      simp only [removeFirst, if_neg hx]
      rw [ih (fun a ha => h a (List.mem_cons_of_mem _ ha))]
      rfl

theorem filter_singleton_of_le_one {p : α → Bool} {l : List α} {e : α}
    (hmem : e ∈ l.filter p) (hlen : (l.filter p).length ≤ 1) :
    l.filter p = [e] := by
  match h : l.filter p with
  | [] => rw [h] at hmem; cases hmem
  | [x] =>
      rw [h] at hmem
      simp only [List.mem_singleton] at hmem
      rw [hmem]
  | x :: y :: rest => rw [h] at hlen; simp at hlen

theorem countP_map_nodup_le_one {f : α → Nat} {l : List α}
    (h : (l.map f).Nodup) (c : Nat) : l.countP (fun x => f x == c) ≤ 1 := by
  induction l with
  | nil => simp
  | cons x xs ih =>
      rw [List.map_cons, List.nodup_cons] at h
      by_cases hx : (f x == c) = true
      · have hfx : f x = c := by simpa using hx
        have h0 : xs.countP (fun y => f y == c) = 0 := by
          rw [List.countP_eq_zero]
          intro a ha hbeq
          have hfa : f a = c := by simpa using hbeq
          exact h.1 (hfx ▸ hfa ▸ List.mem_map_of_mem f ha)
        rw [List.countP_cons_of_pos (fun y => f y == c) xs hx, h0]
      · rw [List.countP_cons_of_neg (fun y => f y == c) xs hx]
        exact ih h.2

theorem round2_close (x : ℚ) : |round2 x - x| ≤ 1 / 200 := by
  unfold round2
  rw [abs_sub_comm]
  have h := abs_sub_round (x * 100)
  have h2 : x - (round (x * 100) : ℤ) / 100 = (x * 100 - (round (x * 100) : ℤ)) / 100 := by
    ring
  rw [h2, abs_div]
  have h3 : |(100 : ℚ)| = 100 := by norm_num
  rw [h3]
  linarith [h]

theorem round2_zero : round2 0 = 0 := by
  norm_num [round2]

theorem round2_mul_bound (a r1 r2 : ℚ) (hr2 : 0 ≤ r2) :
    |round2 (round2 (a * r1) * r2) - r1 * r2 * a| ≤ 1 / 200 + r2 / 200 := by
  have h1 : |round2 (a * r1) - a * r1| ≤ 1 / 200 := round2_close _
  have h2 : |round2 (round2 (a * r1) * r2) - round2 (a * r1) * r2| ≤ 1 / 200 :=
    round2_close _
  have key : round2 (round2 (a * r1) * r2) - r1 * r2 * a =
      (round2 (round2 (a * r1) * r2) - round2 (a * r1) * r2) +
        r2 * (round2 (a * r1) - a * r1) := by ring
  rw [key]
  have h3 : |r2 * (round2 (a * r1) - a * r1)| ≤ r2 / 200 := by
    rw [abs_mul, abs_of_nonneg hr2]
    calc r2 * |round2 (a * r1) - a * r1| ≤ r2 * (1 / 200) :=
          mul_le_mul_of_nonneg_left h1 hr2
      _ = r2 / 200 := by ring
  calc |(round2 (round2 (a * r1) * r2) - round2 (a * r1) * r2) +
          r2 * (round2 (a * r1) - a * r1)| ≤
        |round2 (round2 (a * r1) * r2) - round2 (a * r1) * r2| +
          |r2 * (round2 (a * r1) - a * r1)| := abs_add _ _
    _ ≤ 1 / 200 + r2 / 200 := add_le_add h2 h3

theorem convert_USD_INR (x : ℚ) :
    convert_currency x Currency.USD Currency.INR = round2 (x * (167 / 2)) := by
  unfold convert_currency
  rw [if_neg (by decide : ¬(Currency.USD = Currency.INR))]
  norm_num [CURRENCY_RATES]

theorem convert_INR_USD (x : ℚ) :
    convert_currency x Currency.INR Currency.USD = round2 (x * (3 / 250)) := by
  unfold convert_currency
  rw [if_neg (by decide : ¬(Currency.INR = Currency.USD))]
  norm_num [CURRENCY_RATES]

theorem create_budget_response_error (db : Db) (req : BudgetCreate)
    (userId newId : Nat) (now : Date) :
    (create_budget db req userId newId now).2 = Except.error () := by
  cases hfb : find_budget db.budgets userId req.category req.month with
  | some e => simp [create_budget, hfb, BudgetResponse.construct]
  | none => simp [create_budget, hfb, BudgetResponse.construct]

/-! ### Claim theorems -/

/-- C6: the Recurrence Calculator returns absent for `none`, the next day
for `daily`, the date one week later for `weekly`, `2025-01-15` for
`monthly` applied to `2024-12-15` (December-to-January rollover), and the
same month/day in the following year for `yearly` on any valid date that
is not February 29. -/
theorem C6_recurrence_calculator (D : Date) (hD : D.valid)
    (hFeb : ¬(D.month = 2 ∧ D.day = 29)) :
    calculate_next_occurrence D RecurrenceType.none = Except.ok Option.none ∧
    calculate_next_occurrence D RecurrenceType.daily = Except.ok (some (addDays 1 D)) ∧
    calculate_next_occurrence D RecurrenceType.weekly = Except.ok (some (addDays 7 D)) ∧
    calculate_next_occurrence ⟨2024, 12, 15⟩ RecurrenceType.monthly =
      Except.ok (some ⟨2025, 1, 15⟩) ∧
    calculate_next_occurrence D RecurrenceType.yearly =
      Except.ok (some ⟨D.year + 1, D.month, D.day⟩) := by
  obtain ⟨h1, h2, h3, h4⟩ := hD
  refine ⟨rfl, rfl, rfl, rfl, ?_⟩
  have hday : D.day ≤ daysInMonth (D.year + 1) D.month := by
    by_cases hm : D.month = 2
    · have hne : D.day ≠ 29 := fun h => hFeb ⟨hm, h⟩
      unfold daysInMonth at h4 ⊢
      rw [if_pos hm] at h4 ⊢
      cases hL : isLeap D.year <;> cases hL2 : isLeap (D.year + 1) <;>
        simp [hL, hL2] at h4 ⊢ <;> omega
    · unfold daysInMonth at h4 ⊢
      rw [if_neg hm] at h4 ⊢
      exact h4
  show (tryReplace D (D.year + 1) D.month).map some = _
  unfold tryReplace
  rw [if_pos ⟨h1, h2, h3, hday⟩]
  rfl

/-- Witness for C6 at the concrete valid date 2024-03-10. -/
theorem C6_recurrence_calculator_witness :
    calculate_next_occurrence ⟨2024, 3, 10⟩ RecurrenceType.none = Except.ok Option.none ∧
    calculate_next_occurrence ⟨2024, 3, 10⟩ RecurrenceType.daily =
      Except.ok (some (addDays 1 ⟨2024, 3, 10⟩)) ∧
    calculate_next_occurrence ⟨2024, 3, 10⟩ RecurrenceType.weekly =
      Except.ok (some (addDays 7 ⟨2024, 3, 10⟩)) ∧
    calculate_next_occurrence ⟨2024, 12, 15⟩ RecurrenceType.monthly =
      Except.ok (some ⟨2025, 1, 15⟩) ∧
    calculate_next_occurrence ⟨2024, 3, 10⟩ RecurrenceType.yearly =
      Except.ok (some ⟨2024 + 1, 3, 10⟩) :=
  C6_recurrence_calculator ⟨2024, 3, 10⟩ (by decide) (by decide)

/-- C7 (amended): conversion is the exact identity when the two
currencies coincide; the round trip equals `1.002 · a` (because the two
fixed cross rates 83.50 and 0.012 multiply to 1.002, not 1) up to a
rounding error of at most 3/500 starting from USD and at most 43/100
starting from INR — it does not return the original amount within
rounding tolerance. -/
theorem C7_currency_conversion (a : ℚ) :
    (∀ c : Currency, convert_currency a c c = a) ∧
    |convert_currency (convert_currency a Currency.USD Currency.INR)
        Currency.INR Currency.USD - 501 / 500 * a| ≤ 3 / 500 ∧
    |convert_currency (convert_currency a Currency.INR Currency.USD)
        Currency.USD Currency.INR - 501 / 500 * a| ≤ 43 / 100 := by
  refine ⟨fun c => by simp [convert_currency], ?_, ?_⟩
  · rw [convert_USD_INR, convert_INR_USD]
    have hb := round2_mul_bound a (167 / 2) (3 / 250) (by norm_num)
    have he : (167 / 2 : ℚ) * (3 / 250) * a = 501 / 500 * a := by ring
    rw [he] at hb
    linarith [hb]
  · rw [convert_INR_USD, convert_USD_INR]
    have hb := round2_mul_bound a (3 / 250) (167 / 2) (by norm_num)
    have he : (3 / 250 : ℚ) * (167 / 2) * a = 501 / 500 * a := by ring
    rw [he] at hb
    linarith [hb]

/-- Counterexample for C7 as stated: converting 10000 USD to INR and back
yields 10020, which is 20 away from the original amount — far outside any
2-decimal rounding tolerance. -/
theorem C7_currency_conversion_cex :
    convert_currency (convert_currency 10000 Currency.USD Currency.INR)
      Currency.INR Currency.USD = 10020 ∧
    ¬(|(10020 : ℚ) - 10000| ≤ 1 / 100) := by
  constructor
  · have hUI : convert_currency 10000 Currency.USD Currency.INR = 835000 := by
      rw [convert_USD_INR]
      norm_num [round2, round_eq]
    rw [hUI, convert_INR_USD]
    norm_num [round2, round_eq]
  · norm_num

/-- C4 (amended): any period string other than `daily` and `weekly` —
in particular any bogus value — selects the monthly grouping (its data
equals the data computed for period `monthly`), but the response's
`period` field echoes the caller's string verbatim rather than carrying
`monthly`. -/
theorem C4_spending_trends_fallback (db : Db) (userId : Nat) (period : String)
    (days : Nat) (now : Date) (h1 : period ≠ "daily") (h2 : period ≠ "weekly") :
    (get_spending_trends db userId period days now).data =
      (get_spending_trends db userId "monthly" days now).data ∧
    (get_spending_trends db userId period days now).period = period := by
  constructor
  · simp only [get_spending_trends, if_neg h1, if_neg h2,
      if_neg (by decide : ¬("monthly" = "daily")),
      if_neg (by decide : ¬("monthly" = "weekly"))]
  · rfl

/-- Witness for C4 at the bogus period string of the spec's scenario. -/
theorem C4_spending_trends_fallback_witness :
    (get_spending_trends ⟨[], []⟩ 1 "bogus" 30 ⟨2024, 5, 15⟩).data =
      (get_spending_trends ⟨[], []⟩ 1 "monthly" 30 ⟨2024, 5, 15⟩).data ∧
    (get_spending_trends ⟨[], []⟩ 1 "bogus" 30 ⟨2024, 5, 15⟩).period = "bogus" :=
  C4_spending_trends_fallback ⟨[], []⟩ 1 "bogus" 30 ⟨2024, 5, 15⟩
    (by decide) (by decide)

/-- Counterexample for C4 as stated: the response to `period = "bogus"`
carries `period = "bogus"`, not `period = "monthly"`. -/
theorem C4_spending_trends_fallback_cex :
    (get_spending_trends ⟨[], []⟩ 1 "bogus" 30 ⟨2024, 5, 15⟩).period = "bogus" ∧
    "bogus" ≠ "monthly" := by
  exact ⟨rfl, by decide⟩

/-- C9 (amended): a transaction stored by `create_transaction` with
`is_recurring = false` always has `next_occurrence` absent, but its
`recurrence_type` is stored exactly as the caller supplied it — it is not
forced to `none`, so the invariant's recurrence-type clause does not
hold. -/
theorem C9_stored_transaction_invariant (req : TransactionCreate)
    (userId newId : Nat) (now : Date) (h : req.is_recurring = false) :
    create_transaction req userId newId now = Except.ok
      { id := newId, user_id := userId, type := req.type, category := req.category,
        amount := req.amount, currency := req.currency,
        description := req.description, date := req.date.getD now,
        tags := req.tags, is_recurring := req.is_recurring,
        recurrence_type := req.recurrence_type, next_occurrence := Option.none,
        created_at := now } := by
  simp [create_transaction, h]

/-- Witness for C9: a concrete non-recurring request. -/
theorem C9_stored_transaction_invariant_witness :
    create_transaction
        ⟨TransactionType.income, TransactionCategory.salary, 10, Currency.INR,
          "pay", Option.none, [], false, RecurrenceType.none⟩ 1 2 ⟨2024, 5, 15⟩ =
      Except.ok
        { id := 2, user_id := 1, type := TransactionType.income,
          category := TransactionCategory.salary, amount := 10,
          currency := Currency.INR, description := "pay", date := ⟨2024, 5, 15⟩,
          tags := [], is_recurring := false, recurrence_type := RecurrenceType.none,
          next_occurrence := Option.none, created_at := ⟨2024, 5, 15⟩ } :=
  C9_stored_transaction_invariant _ 1 2 ⟨2024, 5, 15⟩ rfl

/-- Counterexample for C9 as stated: a request with `is_recurring = false`
and `recurrence_type = daily` is stored with `recurrence_type = daily`,
violating the claimed invariant. -/
theorem C9_stored_transaction_invariant_cex :
    (create_transaction
        ⟨TransactionType.expense, TransactionCategory.food, 5, Currency.INR,
          "x", Option.none, [], false, RecurrenceType.daily⟩ 1 2 ⟨2024, 5, 15⟩).map
      (fun t => (t.is_recurring, t.recurrence_type)) =
      Except.ok (false, RecurrenceType.daily) ∧
    RecurrenceType.daily ≠ RecurrenceType.none := by
  exact ⟨rfl, by decide⟩

/-- C5 (amended): every guarded division yields 0 on a zero denominator —
savings_rate is 0 when the normalized total income is 0, the
budget-progress percentage_used is 0 when budget_amount is 0, and the
category-breakdown percentage is 0 when the (type, currency) bucket
total is 0.  (create_budget's percentage division carries the same guard
but protects a value the endpoint never returns: its response
construction fails for the missing currency field.)  The
average-daily-expense division is unguarded: for `days ≠ 0` it computes
total expense divided by days per currency, but at `days = 0` the
handler raises `ZeroDivisionError` (see the counterexample). -/
theorem C5_division_guards (db : Db) (userId days : Nat) (now : Date)
    (m : MonthKey) (hdays : days ≠ 0) :
    (∀ ins, get_financial_insights db userId days now = Except.ok ins →
      ins.total_income.INR +
          convert_currency ins.total_income.USD Currency.USD Currency.INR = 0 →
      ins.savings_rate = 0) ∧
    (∃ ins, get_financial_insights db userId days now = Except.ok ins ∧
      ins.average_daily_expense.INR = ins.total_expense.INR / days ∧
      ins.average_daily_expense.USD = ins.total_expense.USD / days) ∧
    (∀ e ∈ get_budget_progress db userId m,
      e.budget_amount = 0 → e.percentage_used = 0) ∧
    (∀ c ∈ get_category_breakdown db userId now,
      bucketTotal (breakdownGroups db userId now) c.type c.currency = 0 →
      c.percentage = 0) := by
  refine ⟨?_, ?_, ?_, ?_⟩
  · intro ins hins hzero
    rw [get_financial_insights, if_neg hdays] at hins
    injection hins with h
    subst h
    simp only [insightsCore] at hzero ⊢
    rw [if_neg (fun hgt => absurd hzero (ne_of_gt hgt)), round2_zero]
  · refine ⟨insightsCore db userId days now, ?_, rfl, rfl⟩
    rw [get_financial_insights, if_neg hdays]
  · intro e he hz
    simp only [get_budget_progress, List.mem_map] at he
    obtain ⟨b, hb, rfl⟩ := he
    simp only at hz ⊢
    rw [if_neg (fun hgt => absurd hz (ne_of_gt hgt)), round2_zero]
  · intro c hc hz
    simp only [get_category_breakdown, List.mem_map] at hc
    obtain ⟨g, hg, rfl⟩ := hc
    simp only at hz ⊢
    rw [if_neg (fun hgt => absurd hz (ne_of_gt hgt)), round2_zero]

/-- Witness for C5 at a concrete store and `days = 30`. -/
theorem C5_division_guards_witness :
    (∀ ins, get_financial_insights ⟨[], []⟩ 1 30 ⟨2024, 5, 15⟩ = Except.ok ins →
      ins.total_income.INR +
          convert_currency ins.total_income.USD Currency.USD Currency.INR = 0 →
      ins.savings_rate = 0) ∧
    (∃ ins, get_financial_insights ⟨[], []⟩ 1 30 ⟨2024, 5, 15⟩ = Except.ok ins ∧
      ins.average_daily_expense.INR = ins.total_expense.INR / (30 : Nat) ∧
      ins.average_daily_expense.USD = ins.total_expense.USD / (30 : Nat)) ∧
    (∀ e ∈ get_budget_progress ⟨[], []⟩ 1 ⟨2024, 5⟩,
      e.budget_amount = 0 → e.percentage_used = 0) ∧
    (∀ c ∈ get_category_breakdown ⟨[], []⟩ 1 ⟨2024, 5, 15⟩,
      bucketTotal (breakdownGroups ⟨[], []⟩ 1 ⟨2024, 5, 15⟩) c.type c.currency = 0 →
      c.percentage = 0) :=
  C5_division_guards ⟨[], []⟩ 1 30 ⟨2024, 5, 15⟩ ⟨2024, 5⟩ (by decide)

/-- Counterexample for C5 as stated: `get_financial_insights` faults
(ZeroDivisionError) when the caller passes `days = 0`. -/
theorem C5_division_guards_cex :
    get_financial_insights ⟨[], []⟩ 1 0 ⟨2024, 5, 15⟩ = Except.error () := rfl

/-- C2 (amended): budget progress is computed per stored budget exactly as
claimed — spent is the sum of the user's expense transactions of the
budget's category AND currency inside `[first-of-month,
first-of-next-month)`, remaining is `budget_amount - spent`,
percentage_used is `spent / budget_amount * 100` when the amount is
positive and 0 otherwise (the emitted field carries it rounded to two
decimals), and the status classifies that unrounded percentage.
create_or_update_budget, however, never returns freshly computed values
at all: its `BudgetResponse` construction omits the required currency
field and fails on every call.  Moreover the spent amount it computes
before failing omits the currency filter, so it coincides with the
progress value for the key only when every matching expense transaction
in the window has the relevant currency. -/
theorem C2_budget_progress (db : Db) (userId : Nat) (m : MonthKey)
    (req : BudgetCreate) (newId : Nat) (now : Date) (cur : Currency)
    (hb : (db.budgets.filter (fun b => b.user_id == userId && b.month == m)).length ≤ 100) :
    ((get_budget_progress db userId m).length =
      (db.budgets.filter (fun b => b.user_id == userId && b.month == m)).length) ∧
    (∀ e ∈ get_budget_progress db userId m,
      e.spent_amount = spentWithCurrency db.transactions userId e.category e.currency m ∧
      e.remaining_amount = e.budget_amount - e.spent_amount ∧
      e.percentage_used = round2 (if e.budget_amount > 0
        then e.spent_amount / e.budget_amount * 100 else 0) ∧
      e.status = statusOf (if e.budget_amount > 0
        then e.spent_amount / e.budget_amount * 100 else 0)) ∧
    ((create_budget db req userId newId now).2 = Except.error ()) ∧
    ((∀ t ∈ db.transactions, t.user_id = userId → t.category = req.category →
        t.type = TransactionType.expense →
        Date.ble (monthStart req.month) t.date = true →
        Date.blt t.date (monthEnd req.month) = true → t.currency = cur) →
      spentNoCurrency db.transactions userId req.category req.month =
        spentWithCurrency db.transactions userId req.category cur req.month) := by
  refine ⟨?_, ?_, ?_, ?_⟩
  · simp only [get_budget_progress, List.length_map, List.length_take]
    exact Nat.min_eq_right hb
  · intro e he
    simp only [get_budget_progress, List.mem_map] at he
    obtain ⟨b, hb2, rfl⟩ := he
    exact ⟨rfl, rfl, rfl, rfl⟩
  · exact create_budget_response_error db req userId newId now
  · intro hcur
    unfold spentNoCurrency spentWithCurrency
    congr 1
    congr 1
    apply List.filter_congr
    intro t ht
    by_cases h1 : (t.user_id == userId) = true
    · by_cases h2 : (t.category == req.category) = true
      · by_cases h3 : (t.type == TransactionType.expense) = true
        · by_cases h4 : Date.ble (monthStart req.month) t.date = true
          · by_cases h5 : Date.blt t.date (monthEnd req.month) = true
            · have hc : (t.currency == cur) = true := by
                have := hcur t ht (by simpa using h1) (by simpa using h2)
                  (by simpa using h3) h4 h5
                simp [this]
              simp [h1, h2, h3, h4, h5, hc]
            · simp only [Bool.not_eq_true] at h5
              simp [h5]
          · simp only [Bool.not_eq_true] at h4
            simp [h4]
        · simp only [Bool.not_eq_true] at h3
          simp [h3]
      · simp only [Bool.not_eq_true] at h2
        simp [h2]
    · simp only [Bool.not_eq_true] at h1
      simp [h1]

/-- Witness for C2 at a concrete store holding one INR food budget for
2024-05. -/
theorem C2_budget_progress_witness :
    ((get_budget_progress
        ⟨[], [⟨3, 1, TransactionCategory.food, 100, Currency.INR, ⟨2024, 5⟩, ⟨2024, 4, 1⟩⟩]⟩
        1 ⟨2024, 5⟩).length =
      (([⟨3, 1, TransactionCategory.food, 100, Currency.INR, ⟨2024, 5⟩, ⟨2024, 4, 1⟩⟩] :
          List Budget).filter
        (fun b => b.user_id == 1 && b.month == (⟨2024, 5⟩ : MonthKey))).length) ∧
    (∀ e ∈ get_budget_progress
        ⟨[], [⟨3, 1, TransactionCategory.food, 100, Currency.INR, ⟨2024, 5⟩, ⟨2024, 4, 1⟩⟩]⟩
        1 ⟨2024, 5⟩,
      e.spent_amount = spentWithCurrency [] 1 e.category e.currency ⟨2024, 5⟩ ∧
      e.remaining_amount = e.budget_amount - e.spent_amount ∧
      e.percentage_used = round2 (if e.budget_amount > 0
        then e.spent_amount / e.budget_amount * 100 else 0) ∧
      e.status = statusOf (if e.budget_amount > 0
        then e.spent_amount / e.budget_amount * 100 else 0)) ∧
    ((create_budget
        ⟨[], [⟨3, 1, TransactionCategory.food, 100, Currency.INR, ⟨2024, 5⟩, ⟨2024, 4, 1⟩⟩]⟩
        ⟨TransactionCategory.food, 100, Currency.INR, ⟨2024, 5⟩⟩ 1 11
        ⟨2024, 5, 1⟩).2 = Except.error ()) ∧
    ((∀ t ∈ ([] : List Transaction), t.user_id = 1 →
        t.category = TransactionCategory.food →
        t.type = TransactionType.expense →
        Date.ble (monthStart ⟨2024, 5⟩) t.date = true →
        Date.blt t.date (monthEnd ⟨2024, 5⟩) = true → t.currency = Currency.INR) →
      spentNoCurrency [] 1 TransactionCategory.food ⟨2024, 5⟩ =
        spentWithCurrency [] 1 TransactionCategory.food Currency.INR ⟨2024, 5⟩) :=
  C2_budget_progress
    ⟨[], [⟨3, 1, TransactionCategory.food, 100, Currency.INR, ⟨2024, 5⟩, ⟨2024, 4, 1⟩⟩]⟩
    1 ⟨2024, 5⟩ ⟨TransactionCategory.food, 100, Currency.INR, ⟨2024, 5⟩⟩ 11
    ⟨2024, 5, 1⟩ Currency.INR (by decide)

/-- Counterexample for C2 as stated: create_or_update_budget never
returns freshly computed values — its response construction fails on
every call (here at a concrete store).  Moreover, with a single USD food
expense of 50 in the month, the spent amount create_budget computes
before failing is 50 (its query ignores currency) while the
budget-progress entry for the same key reports spent = 0 (its query
filters on the stored INR currency). -/
theorem C2_budget_progress_cex :
    (create_budget
        ⟨[⟨7, 1, TransactionType.expense, TransactionCategory.food, 50, Currency.USD,
            "d", ⟨2024, 5, 10⟩, [], false, RecurrenceType.none, Option.none,
            ⟨2024, 5, 10⟩⟩], []⟩
        ⟨TransactionCategory.food, 100, Currency.INR, ⟨2024, 5⟩⟩ 1 11
        ⟨2024, 5, 1⟩).2 = Except.error () ∧
    spentNoCurrency
      [⟨7, 1, TransactionType.expense, TransactionCategory.food, 50, Currency.USD,
          "d", ⟨2024, 5, 10⟩, [], false, RecurrenceType.none, Option.none,
          ⟨2024, 5, 10⟩⟩] 1 TransactionCategory.food ⟨2024, 5⟩ = 50 ∧
    ((get_budget_progress
        (create_budget
          ⟨[⟨7, 1, TransactionType.expense, TransactionCategory.food, 50, Currency.USD,
              "d", ⟨2024, 5, 10⟩, [], false, RecurrenceType.none, Option.none,
              ⟨2024, 5, 10⟩⟩], []⟩
          ⟨TransactionCategory.food, 100, Currency.INR, ⟨2024, 5⟩⟩ 1 11
          ⟨2024, 5, 1⟩).1
        1 ⟨2024, 5⟩).map ProgressEntry.spent_amount) = [0] ∧
    (50 : ℚ) ≠ 0 := by
  refine ⟨rfl, ?_, ?_, by norm_num⟩
  · simp +decide [spentNoCurrency, sumAmounts, monthStart, monthEnd,
      Date.ble, Date.blt]
  · simp +decide [create_budget, find_budget, get_budget_progress,
      spentNoCurrency, spentWithCurrency, sumAmounts, monthStart, monthEnd,
      Date.ble, Date.blt]

/-- C1 (amended): budget creation's storage effect is an idempotent
upsert keyed by `(user_id, category, month)` — the request's currency is
not part of the lookup key, and an inserted budget stores the
model-default currency INR whatever the request says.  For every user,
two calls with the same category and month (whatever their currencies)
leave exactly one stored budget for that key, its `budget_amount` is the
second call's amount, and the stored record's id is unchanged by the
second call.  Neither call, however, returns an id: both raise
`ValidationError` while building their `BudgetResponse` (the required
currency field is never supplied), so the claim's "id returned by the
second call equals the id returned by the first" concerns responses the
program never produces. -/
theorem C1_budget_upsert (db : Db) (userId newId1 newId2 : Nat)
    (r1 r2 : BudgetCreate) (now1 now2 : Date)
    (hcat : r2.category = r1.category) (hmon : r2.month = r1.month)
    (hnodup : (db.budgets.map Budget.id).Nodup)
    (hfresh : ∀ b ∈ db.budgets, b.id ≠ newId1)
    (huniq : (db.budgets.filter (fun b => b.user_id == userId &&
        b.category == r1.category && b.month == r1.month)).length ≤ 1) :
    (((create_budget (create_budget db r1 userId newId1 now1).1 r2 userId newId2
        now2).1.budgets.filter (fun b => b.user_id == userId &&
          b.category == r1.category && b.month == r1.month)).length = 1) ∧
    (∀ b ∈ (create_budget (create_budget db r1 userId newId1 now1).1 r2 userId
        newId2 now2).1.budgets,
      b.user_id = userId → b.category = r1.category → b.month = r1.month →
      b.budget_amount = r2.budget_amount) ∧
    (((create_budget (create_budget db r1 userId newId1 now1).1 r2 userId newId2
        now2).1.budgets.filter (fun b => b.user_id == userId &&
          b.category == r1.category && b.month == r1.month)).map Budget.id =
      ((create_budget db r1 userId newId1 now1).1.budgets.filter
        (fun b => b.user_id == userId && b.category == r1.category &&
          b.month == r1.month)).map Budget.id) ∧
    ((create_budget db r1 userId newId1 now1).2 = Except.error ()) ∧
    ((create_budget (create_budget db r1 userId newId1 now1).1 r2 userId newId2
        now2).2 = Except.error ()) := by
  cases hfb : find_budget db.budgets userId r1.category r1.month with
  | none =>
      have hall : ∀ b ∈ db.budgets, ¬((b.user_id == userId &&
          b.category == r1.category && b.month == r1.month) = true) :=
        List.find?_eq_none.mp hfb
      have hfb2 : find_budget (db.budgets ++
          [(⟨newId1, userId, r1.category, r1.budget_amount, Currency.INR,
            r1.month, now1⟩ : Budget)]) userId r2.category r2.month =
          some (⟨newId1, userId, r1.category, r1.budget_amount, Currency.INR,
            r1.month, now1⟩ : Budget) := by
        unfold find_budget
        rw [hcat, hmon, List.find?_append]
        rw [show db.budgets.find? (fun b => b.user_id == userId &&
            b.category == r1.category && b.month == r1.month) = Option.none from hfb]
        simp
      simp only [create_budget, hfb, hfb2]
      have hpass : updateFirst (fun b => b.id == newId1)
          (fun b => { b with budget_amount := r2.budget_amount })
          (db.budgets ++
            [(⟨newId1, userId, r1.category, r1.budget_amount, Currency.INR,
              r1.month, now1⟩ : Budget)]) =
          db.budgets ++
            [(⟨newId1, userId, r1.category, r2.budget_amount, Currency.INR,
              r1.month, now1⟩ : Budget)] := by
        rw [updateFirst_append_left
          (fun a ha => by simpa using hfresh a ha)]
        simp [updateFirst]
      refine ⟨?_, ?_, ?_, ?_, ?_⟩
      · rw [hpass, List.filter_append]
        rw [List.filter_eq_nil_iff.mpr hall]
        simp
      · intro b hb hu hc hm2
        rw [hpass] at hb
        rcases List.mem_append.mp hb with hbl | hbr
        · exact absurd (by simp [hu, hc, hm2]) (hall b hbl)
        · have hbe : b = (⟨newId1, userId, r1.category, r2.budget_amount,
              Currency.INR, r1.month, now1⟩ : Budget) := by simpa using hbr
          rw [hbe]
      · rw [hpass, List.filter_append, List.filter_append,
          List.filter_eq_nil_iff.mpr hall]
        simp
      · rfl
      · rfl
  | some e =>
      have hfbu : db.budgets.find? (fun b => b.user_id == userId &&
          b.category == r1.category && b.month == r1.month) = some e := hfb
      have hpe := List.find?_some hfbu
      have hmem := List.mem_of_find?_eq_some hfbu
      have hcount : db.budgets.countP (fun b => b.id == e.id) ≤ 1 :=
        countP_map_nodup_le_one hnodup e.id
      have hupd1 : updateFirst (fun b => b.id == e.id)
          (fun b => { b with budget_amount := r1.budget_amount }) db.budgets =
          db.budgets.map (fun b => if b.id == e.id then
            { b with budget_amount := r1.budget_amount } else b) :=
        updateFirst_eq_map hcount
      have hefilter : db.budgets.filter (fun b => b.user_id == userId &&
          b.category == r1.category && b.month == r1.month) = [e] :=
        filter_singleton_of_le_one (List.mem_filter.mpr ⟨hmem, hpe⟩) huniq
      have hpg1 : ∀ b : Budget, ((fun b : Budget => b.user_id == userId &&
          b.category == r1.category && b.month == r1.month)
            (if b.id == e.id then { b with budget_amount := r1.budget_amount } else b)) =
          (b.user_id == userId && b.category == r1.category && b.month == r1.month) := by
        intro b
        by_cases hb : (b.id == e.id) = true
        · rw [if_pos hb]
        · rw [if_neg hb]
      have hfb2 : find_budget (db.budgets.map (fun b => if b.id == e.id then
          { b with budget_amount := r1.budget_amount } else b)) userId
          r2.category r2.month =
          some { e with budget_amount := r1.budget_amount } := by
        unfold find_budget
        rw [hcat, hmon, List.find?_map]
        rw [show ((fun b : Budget => b.user_id == userId &&
            b.category == r1.category && b.month == r1.month) ∘
            (fun b : Budget => if b.id == e.id then
              { b with budget_amount := r1.budget_amount } else b)) =
            (fun b : Budget => b.user_id == userId && b.category == r1.category &&
              b.month == r1.month) from funext hpg1]
        rw [hfbu]
        simp
      simp only [create_budget, hfb, hupd1, hfb2]
      have hids : (db.budgets.map (fun b => if b.id == e.id then
          { b with budget_amount := r1.budget_amount } else b)).map Budget.id =
          db.budgets.map Budget.id := by
        rw [List.map_map]
        exact List.map_congr_left (fun b _ => by
          by_cases hb : b.id = e.id
          · simp [hb]
          · simp [hb])
      have hcount2 : (db.budgets.map (fun b => if b.id == e.id then
          { b with budget_amount := r1.budget_amount } else b)).countP
            (fun b => b.id == e.id) ≤ 1 :=
        countP_map_nodup_le_one (by rw [hids]; exact hnodup) e.id
      have hupd2 : updateFirst (fun b => b.id == e.id)
          (fun b => { b with budget_amount := r2.budget_amount })
          (db.budgets.map (fun b => if b.id == e.id then
            { b with budget_amount := r1.budget_amount } else b)) =
          db.budgets.map (fun b => if b.id == e.id then
            { b with budget_amount := r2.budget_amount } else b) := by
        rw [updateFirst_eq_map hcount2, List.map_map]
        exact List.map_congr_left (fun b _ => by
          by_cases hb : b.id = e.id
          · simp [hb]
          · simp [hb])
      rw [hupd2]
      have hcomp1 : ((fun b : Budget => b.user_id == userId &&
          b.category == r1.category && b.month == r1.month) ∘
          (fun b : Budget => if b.id == e.id then
            { b with budget_amount := r1.budget_amount } else b)) =
          (fun b : Budget => b.user_id == userId && b.category == r1.category &&
            b.month == r1.month) := funext hpg1
      have hcomp2 : ((fun b : Budget => b.user_id == userId &&
          b.category == r1.category && b.month == r1.month) ∘
          (fun b : Budget => if b.id == e.id then
            { b with budget_amount := r2.budget_amount } else b)) =
          (fun b : Budget => b.user_id == userId && b.category == r1.category &&
            b.month == r1.month) :=
        funext (fun b => by
          by_cases hb : (b.id == e.id) = true
          · rw [Function.comp_apply, if_pos hb]
          · rw [Function.comp_apply, if_neg hb])
      refine ⟨?_, ?_, ?_, ?_, ?_⟩
      · rw [List.filter_map, hcomp2, hefilter]
        simp
      · intro b hb hu hc hm2
        obtain ⟨b0, hb0, rfl⟩ := List.mem_map.mp hb
        have hpb0 : (b0.user_id == userId && b0.category == r1.category &&
            b0.month == r1.month) = true := by
          by_cases hid : (b0.id == e.id) = true
          · rw [if_pos hid] at hu hc hm2
            simp at hu hc hm2
            simp [hu, hc, hm2]
          · rw [if_neg hid] at hu hc hm2
            simp [hu, hc, hm2]
        have hb0e : b0 = e := by
          have : b0 ∈ db.budgets.filter (fun b => b.user_id == userId &&
              b.category == r1.category && b.month == r1.month) :=
            List.mem_filter.mpr ⟨hb0, hpb0⟩
          rw [hefilter] at this
          simpa using this
        rw [hb0e, if_pos (by simp)]
      · rw [List.filter_map, List.filter_map, hcomp2, hcomp1, hefilter]
        simp
      · rfl
      · rfl

/-- Witness for C1: two calls for the food/2024-05 key against an empty
store, the second with a different amount. -/
theorem C1_budget_upsert_witness :
    (((create_budget (create_budget ⟨[], []⟩
          ⟨TransactionCategory.food, 100, Currency.INR, ⟨2024, 5⟩⟩ 1 11
          ⟨2024, 5, 1⟩).1
        ⟨TransactionCategory.food, 250, Currency.INR, ⟨2024, 5⟩⟩ 1 12
        ⟨2024, 5, 2⟩).1.budgets.filter (fun b => b.user_id == 1 &&
          b.category == TransactionCategory.food &&
          b.month == (⟨2024, 5⟩ : MonthKey))).length = 1) ∧
    (∀ b ∈ (create_budget (create_budget ⟨[], []⟩
          ⟨TransactionCategory.food, 100, Currency.INR, ⟨2024, 5⟩⟩ 1 11
          ⟨2024, 5, 1⟩).1
        ⟨TransactionCategory.food, 250, Currency.INR, ⟨2024, 5⟩⟩ 1 12
        ⟨2024, 5, 2⟩).1.budgets,
      b.user_id = 1 → b.category = TransactionCategory.food →
      b.month = ⟨2024, 5⟩ → b.budget_amount = 250) ∧
    (((create_budget (create_budget ⟨[], []⟩
          ⟨TransactionCategory.food, 100, Currency.INR, ⟨2024, 5⟩⟩ 1 11
          ⟨2024, 5, 1⟩).1
        ⟨TransactionCategory.food, 250, Currency.INR, ⟨2024, 5⟩⟩ 1 12
        ⟨2024, 5, 2⟩).1.budgets.filter (fun b => b.user_id == 1 &&
          b.category == TransactionCategory.food &&
          b.month == (⟨2024, 5⟩ : MonthKey))).map Budget.id =
      ((create_budget ⟨[], []⟩
          ⟨TransactionCategory.food, 100, Currency.INR, ⟨2024, 5⟩⟩ 1 11
          ⟨2024, 5, 1⟩).1.budgets.filter (fun b => b.user_id == 1 &&
          b.category == TransactionCategory.food &&
          b.month == (⟨2024, 5⟩ : MonthKey))).map Budget.id) ∧
    ((create_budget ⟨[], []⟩
        ⟨TransactionCategory.food, 100, Currency.INR, ⟨2024, 5⟩⟩ 1 11
        ⟨2024, 5, 1⟩).2 = Except.error ()) ∧
    ((create_budget (create_budget ⟨[], []⟩
          ⟨TransactionCategory.food, 100, Currency.INR, ⟨2024, 5⟩⟩ 1 11
          ⟨2024, 5, 1⟩).1
        ⟨TransactionCategory.food, 250, Currency.INR, ⟨2024, 5⟩⟩ 1 12
        ⟨2024, 5, 2⟩).2 = Except.error ()) :=
  C1_budget_upsert ⟨[], []⟩ 1 11 12
    ⟨TransactionCategory.food, 100, Currency.INR, ⟨2024, 5⟩⟩
    ⟨TransactionCategory.food, 250, Currency.INR, ⟨2024, 5⟩⟩
    ⟨2024, 5, 1⟩ ⟨2024, 5, 2⟩ rfl rfl (by decide) (by simp) (by decide)

/-- Counterexample for C1 as stated: creating the same budget twice with
currency USD (same category, month and currency in both calls) leaves
zero stored budgets for the full key including `currency = USD` — the
lookup key omits currency and the inserted record stores the default
INR — and neither call returns an id: both response constructions fail
for the missing required currency field. -/
theorem C1_budget_upsert_cex :
    ((create_budget (create_budget ⟨[], []⟩
          ⟨TransactionCategory.food, 100, Currency.USD, ⟨2024, 5⟩⟩ 1 11
          ⟨2024, 5, 1⟩).1
        ⟨TransactionCategory.food, 250, Currency.USD, ⟨2024, 5⟩⟩ 1 12
        ⟨2024, 5, 2⟩).1.budgets.filter
      (fun b => b.user_id == 1 && b.category == TransactionCategory.food &&
        b.month == (⟨2024, 5⟩ : MonthKey) && b.currency == Currency.USD)).length = 0 ∧
    (create_budget ⟨[], []⟩
        ⟨TransactionCategory.food, 100, Currency.USD, ⟨2024, 5⟩⟩ 1 11
        ⟨2024, 5, 1⟩).2 = Except.error () ∧
    (create_budget (create_budget ⟨[], []⟩
          ⟨TransactionCategory.food, 100, Currency.USD, ⟨2024, 5⟩⟩ 1 11
          ⟨2024, 5, 1⟩).1
        ⟨TransactionCategory.food, 250, Currency.USD, ⟨2024, 5⟩⟩ 1 12
        ⟨2024, 5, 2⟩).2 = Except.error () := by
  refine ⟨by decide, rfl, rfl⟩

/-- C10 (confirmed): `update_transaction` replaces exactly the fields
type, category, amount, description and date of the target transaction —
currency, tags, is_recurring, recurrence_type, next_occurrence,
created_at, user_id and id are all preserved, no other stored transaction
changes, and when the request omits `date` the stored date becomes the
processing time `now` rather than being preserved. -/
theorem C10_update_frame (db : Db) (userId tid : Nat) (req : TransactionCreate)
    (now : Date) (t : Transaction)
    (hmem : t ∈ db.transactions) (hid : t.id = tid) (huser : t.user_id = userId)
    (hnodup : (db.transactions.map Transaction.id).Nodup) :
    ∃ db2 u, update_transaction db userId tid req now = Except.ok (db2, u) ∧
      u.type = req.type ∧ u.category = req.category ∧ u.amount = req.amount ∧
      u.description = req.description ∧ u.date = req.date.getD now ∧
      (req.date = Option.none → u.date = now) ∧
      u.currency = t.currency ∧ u.tags = t.tags ∧
      u.is_recurring = t.is_recurring ∧ u.recurrence_type = t.recurrence_type ∧
      u.next_occurrence = t.next_occurrence ∧ u.created_at = t.created_at ∧
      u.user_id = t.user_id ∧ u.id = t.id ∧
      db2.budgets = db.budgets ∧
      db2.transactions = db.transactions.map
        (fun s => if s.id = tid then u else s) := by
  have huniq : ∀ a ∈ db.transactions,
      (a.id == tid && a.user_id == userId) = true → a = t := by
    intro a ha hpa
    rw [Bool.and_eq_true] at hpa
    have haid : a.id = tid := by simpa using hpa.1
    exact List.inj_on_of_nodup_map hnodup ha hmem (by rw [haid, hid])
  have hfind : db.transactions.find?
      (fun s => s.id == tid && s.user_id == userId) = some t :=
    find?_mem_unique hmem (by simp [hid, huser]) huniq
  have hcount : db.transactions.countP
      (fun s => s.id == tid && s.user_id == userId) ≤ 1 := by
    calc db.transactions.countP (fun s => s.id == tid && s.user_id == userId) ≤
          db.transactions.countP (fun s => s.id == tid) :=
        List.countP_mono_left (fun a _ hpa => by
          rw [Bool.and_eq_true] at hpa
          exact hpa.1)
      _ ≤ 1 := countP_map_nodup_le_one hnodup tid
  have hupd : updateFirst (fun s => s.id == tid && s.user_id == userId)
      (applyUpdate req now) db.transactions =
      db.transactions.map (fun s =>
        if s.id == tid && s.user_id == userId then applyUpdate req now s else s) :=
    updateFirst_eq_map hcount
  have hfnt : (if (t.id == tid && t.user_id == userId) = true then
      applyUpdate req now t else t) = applyUpdate req now t := by
    simp [hid, huser]
  have hfind2 : (db.transactions.map (fun s =>
      if s.id == tid && s.user_id == userId then applyUpdate req now s else s)).find?
      (fun s => s.id == tid) = some (applyUpdate req now t) := by
    apply find?_mem_unique
    · rw [← hfnt]
      exact List.mem_map_of_mem _ hmem
    · simp [applyUpdate, hid]
    · intro a ha hpa
      obtain ⟨b0, hb0, rfl⟩ := List.mem_map.mp ha
      have hbid : b0.id = tid := by
        by_cases hb : (b0.id == tid && b0.user_id == userId) = true
        · rw [Bool.and_eq_true] at hb
          simpa using hb.1
        · rw [if_neg hb] at hpa
          simpa using hpa
      have hb0t : b0 = t :=
        List.inj_on_of_nodup_map hnodup hb0 hmem (by rw [hbid, hid])
      rw [hb0t, hfnt]
  refine ⟨{ db with transactions := db.transactions.map (fun s =>
      if s.id == tid && s.user_id == userId then applyUpdate req now s else s) },
    applyUpdate req now t, ?_, rfl, rfl, rfl, rfl, rfl,
    (fun h => by simp [applyUpdate, h]), rfl, rfl, rfl, rfl, rfl, rfl, rfl, rfl,
    rfl, ?_⟩
  · simp only [update_transaction, hfind, hupd, hfind2]
  · simp only
    apply List.map_congr_left
    intro s hs
    dsimp only
    by_cases hsid : s.id = tid
    · have hst : s = t :=
        List.inj_on_of_nodup_map hnodup hs hmem (by rw [hsid, hid])
      rw [if_pos hsid, hst]
      simp [hid, huser]
    · rw [if_neg hsid, if_neg (by simp [hsid])]

/-- Witness for C10: updating a concrete stored transaction with a
request that omits the date. -/
theorem C10_update_frame_witness :
    ∃ db2 u, update_transaction
        ⟨[⟨7, 1, TransactionType.expense, TransactionCategory.food, 50, Currency.USD,
            "lunch", ⟨2024, 5, 10⟩, ["fast"], false, RecurrenceType.none, Option.none,
            ⟨2024, 5, 10⟩⟩], []⟩ 1 7
        ⟨TransactionType.expense, TransactionCategory.shopping, 75, Currency.INR,
          "shoes", Option.none, [], false, RecurrenceType.none⟩ ⟨2024, 6, 1⟩ =
        Except.ok (db2, u) ∧
      u.type = TransactionType.expense ∧ u.category = TransactionCategory.shopping ∧
      u.amount = 75 ∧ u.description = "shoes" ∧
      u.date = (Option.none : Option Date).getD ⟨2024, 6, 1⟩ ∧
      ((Option.none : Option Date) = Option.none → u.date = ⟨2024, 6, 1⟩) ∧
      u.currency = Currency.USD ∧ u.tags = ["fast"] ∧
      u.is_recurring = false ∧ u.recurrence_type = RecurrenceType.none ∧
      u.next_occurrence = Option.none ∧ u.created_at = ⟨2024, 5, 10⟩ ∧
      u.user_id = 1 ∧ u.id = 7 ∧
      db2.budgets = [] ∧
      db2.transactions =
        [⟨7, 1, TransactionType.expense, TransactionCategory.food, 50, Currency.USD,
            "lunch", ⟨2024, 5, 10⟩, ["fast"], false, RecurrenceType.none, Option.none,
            ⟨2024, 5, 10⟩⟩].map (fun s => if s.id = 7 then u else s) :=
  C10_update_frame
    ⟨[⟨7, 1, TransactionType.expense, TransactionCategory.food, 50, Currency.USD,
        "lunch", ⟨2024, 5, 10⟩, ["fast"], false, RecurrenceType.none, Option.none,
        ⟨2024, 5, 10⟩⟩], []⟩ 1 7
    ⟨TransactionType.expense, TransactionCategory.shopping, 75, Currency.INR,
      "shoes", Option.none, [], false, RecurrenceType.none⟩ ⟨2024, 6, 1⟩
    ⟨7, 1, TransactionType.expense, TransactionCategory.food, 50, Currency.USD,
      "lunch", ⟨2024, 5, 10⟩, ["fast"], false, RecurrenceType.none, Option.none,
      ⟨2024, 5, 10⟩⟩
    (List.mem_singleton.mpr rfl) rfl rfl (by decide)

theorem create_transaction_fields (req : TransactionCreate) (userId newId : Nat)
    (now : Date) (t : Transaction)
    (h : create_transaction req userId newId now = Except.ok t) :
    t.user_id = userId ∧ t.id = newId := by
  unfold create_transaction at h
  dsimp only at h
  by_cases hrec : req.is_recurring = true ∧ req.recurrence_type ≠ RecurrenceType.none
  · rw [if_pos hrec] at h
    cases hcn : calculate_next_occurrence (req.date.getD now) req.recurrence_type with
    | error e =>
        rw [hcn] at h
        exact absurd h (by simp [Bind.bind, Except.bind])
    | ok v =>
        rw [hcn] at h
        simp only [Bind.bind, Except.bind, Except.ok.injEq] at h
        rw [← h]
        exact ⟨rfl, rfl⟩
  · rw [if_neg hrec] at h
    simp only [Bind.bind, Except.bind, Pure.pure, Except.pure,
      Except.ok.injEq] at h
    rw [← h]
    exact ⟨rfl, rfl⟩

theorem create_transaction_db_shape (db : Db) (req : TransactionCreate)
    (userId newId : Nat) (now : Date) (db2 : Db) (t : Transaction)
    (h : create_transaction_db db req userId newId now = Except.ok (db2, t)) :
    db2 = { db with transactions := db.transactions ++ [t] } ∧
    t.user_id = userId := by
  unfold create_transaction_db at h
  cases hc : create_transaction req userId newId now with
  | error e =>
      rw [hc] at h
      exact absurd h (by simp [Bind.bind, Except.bind])
  | ok tr =>
      rw [hc] at h
      simp only [Bind.bind, Except.bind, Except.ok.injEq, Prod.mk.injEq] at h
      obtain ⟨hdb, ht⟩ := h
      subst ht
      exact ⟨hdb.symm, (create_transaction_fields req userId newId now _ hc).1⟩

/-- C8 (confirmed): user isolation — a transaction created by user A
never appears in user B's transaction list or search results, adding it
leaves B's monthly summary and daily trends unchanged, and B's attempt to
delete it by id fails with not-found and leaves the store exactly as it
was. -/
theorem C8_user_isolation (db : Db) (A B newId : Nat) (req : TransactionCreate)
    (now now2 : Date) (days : Nat) (db2 : Db) (t : Transaction) (f : SearchFilters)
    (hAB : A ≠ B)
    (hc : create_transaction_db db req A newId now = Except.ok (db2, t))
    (hid : ∀ u ∈ db2.transactions, u.id = t.id → u.user_id = A) :
    t ∉ get_transactions db2 B ∧
    t ∉ search_transactions db2 B f ∧
    get_monthly_summary db2 B = get_monthly_summary db B ∧
    get_daily_trends db2 B days now2 = get_daily_trends db B days now2 ∧
    delete_transaction db2 B t.id = (db2, Except.error ()) := by
  obtain ⟨hdb2, htu⟩ := create_transaction_db_shape db req A newId now db2 t hc
  subst hdb2
  have htB : (t.user_id == B) = false := by
    simp [htu]
    exact hAB
  have hfil : ∀ p : Transaction → Bool, p t = false →
      (db.transactions ++ [t]).filter p = db.transactions.filter p := by
    intro p hp
    rw [List.filter_append]
    simp [hp]
  refine ⟨?_, ?_, ?_, ?_, ?_⟩
  · intro hmemT
    unfold get_transactions at hmemT
    have h1 := List.mem_of_mem_take hmemT
    have h2 := (mem_sortBy _ _).mp h1
    have h3 := List.of_mem_filter h2
    rw [htB] at h3
    cases h3
  · intro hmemT
    unfold search_transactions at hmemT
    have h1 := List.mem_of_mem_take hmemT
    have h2 := (mem_sortBy _ _).mp h1
    have h3 := List.of_mem_filter h2
    rw [Bool.and_eq_true] at h3
    rw [htB] at h3
    cases h3.1
  · unfold get_monthly_summary
    dsimp only
    rw [hfil _ htB]
  · unfold get_daily_trends
    dsimp only
    rw [hfil _ (by simp [htB])]
  · unfold delete_transaction
    rw [removeFirst_eq_none]
    intro a ha hpa
    rw [Bool.and_eq_true] at hpa
    have haid : a.id = t.id := by simpa using hpa.1
    have haB : a.user_id = B := by simpa using hpa.2
    exact hAB ((hid a ha haid ▸ haB).symm ▸ rfl)

/-- Witness for C8: user 1 creates a salary transaction; user 2 sees
none of it and cannot delete it. -/
theorem C8_user_isolation_witness :
    (⟨7, 1, TransactionType.income, TransactionCategory.salary, 10, Currency.INR,
        "pay", ⟨2024, 5, 15⟩, [], false, RecurrenceType.none, Option.none,
        ⟨2024, 5, 15⟩⟩ : Transaction) ∉
      get_transactions ⟨[⟨7, 1, TransactionType.income, TransactionCategory.salary,
        10, Currency.INR, "pay", ⟨2024, 5, 15⟩, [], false, RecurrenceType.none,
        Option.none, ⟨2024, 5, 15⟩⟩], []⟩ 2 ∧
    (⟨7, 1, TransactionType.income, TransactionCategory.salary, 10, Currency.INR,
        "pay", ⟨2024, 5, 15⟩, [], false, RecurrenceType.none, Option.none,
        ⟨2024, 5, 15⟩⟩ : Transaction) ∉
      search_transactions ⟨[⟨7, 1, TransactionType.income, TransactionCategory.salary,
        10, Currency.INR, "pay", ⟨2024, 5, 15⟩, [], false, RecurrenceType.none,
        Option.none, ⟨2024, 5, 15⟩⟩], []⟩ 2
        ⟨Option.none, Option.none, Option.none, Option.none, Option.none,
          Option.none, Option.none, []⟩ ∧
    get_monthly_summary ⟨[⟨7, 1, TransactionType.income, TransactionCategory.salary,
        10, Currency.INR, "pay", ⟨2024, 5, 15⟩, [], false, RecurrenceType.none,
        Option.none, ⟨2024, 5, 15⟩⟩], []⟩ 2 =
      get_monthly_summary ⟨[], []⟩ 2 ∧
    get_daily_trends ⟨[⟨7, 1, TransactionType.income, TransactionCategory.salary,
        10, Currency.INR, "pay", ⟨2024, 5, 15⟩, [], false, RecurrenceType.none,
        Option.none, ⟨2024, 5, 15⟩⟩], []⟩ 2 30 ⟨2024, 5, 20⟩ =
      get_daily_trends ⟨[], []⟩ 2 30 ⟨2024, 5, 20⟩ ∧
    delete_transaction ⟨[⟨7, 1, TransactionType.income, TransactionCategory.salary,
        10, Currency.INR, "pay", ⟨2024, 5, 15⟩, [], false, RecurrenceType.none,
        Option.none, ⟨2024, 5, 15⟩⟩], []⟩ 2 7 =
      (⟨[⟨7, 1, TransactionType.income, TransactionCategory.salary, 10, Currency.INR,
          "pay", ⟨2024, 5, 15⟩, [], false, RecurrenceType.none, Option.none,
          ⟨2024, 5, 15⟩⟩], []⟩, Except.error ()) :=
  C8_user_isolation ⟨[], []⟩ 1 2 7
    ⟨TransactionType.income, TransactionCategory.salary, 10, Currency.INR, "pay",
      some ⟨2024, 5, 15⟩, [], false, RecurrenceType.none⟩
    ⟨2024, 5, 15⟩ ⟨2024, 5, 20⟩ 30
    ⟨[⟨7, 1, TransactionType.income, TransactionCategory.salary, 10, Currency.INR,
        "pay", ⟨2024, 5, 15⟩, [], false, RecurrenceType.none, Option.none,
        ⟨2024, 5, 15⟩⟩], []⟩
    ⟨7, 1, TransactionType.income, TransactionCategory.salary, 10, Currency.INR,
      "pay", ⟨2024, 5, 15⟩, [], false, RecurrenceType.none, Option.none,
      ⟨2024, 5, 15⟩⟩
    ⟨Option.none, Option.none, Option.none, Option.none, Option.none,
      Option.none, Option.none, []⟩
    (by decide) rfl
    (by intro u hu h; rw [List.mem_singleton.mp hu])

theorem processLoop_spec (newId : Nat → Nat) (now : Date) :
    ∀ (due store store2 fresh : List Transaction),
      (store.map Transaction.id).Nodup →
      (due.map Transaction.id).Nodup →
      processLoop newId now store due = Except.ok (store2, fresh) →
      store2 = store.map (fun s =>
        match due.find? (fun t => t.id == s.id) with
        | some t => { s with next_occurrence := nextOccValue now t }
        | Option.none => s) ∧
      fresh = due.map (materialize newId now) ∧
      ∀ t ∈ due, ∃ v, calculate_next_occurrence (t.next_occurrence.getD now)
        t.recurrence_type = Except.ok v := by
  intro due
  induction due with
  | nil =>
      intro store store2 fresh hs hd h
      unfold processLoop at h
      simp only [Except.ok.injEq, Prod.mk.injEq] at h
      obtain ⟨h1, h2⟩ := h
      refine ⟨?_, h2.symm, by simp⟩
      rw [← h1]
      simp [List.find?]
  | cons t rest ih =>
      intro store store2 fresh hs hd h
      unfold processLoop at h
      cases hcn : calculate_next_occurrence (t.next_occurrence.getD now)
          t.recurrence_type with
      | error e =>
          rw [hcn] at h
          exact absurd h (by simp [Bind.bind, Except.bind])
      | ok nv =>
          rw [hcn] at h
          simp only [Bind.bind, Except.bind] at h
          cases hrec : processLoop newId now (updateFirst (fun s => s.id == t.id)
              (fun s => { s with next_occurrence := nv }) store) rest with
          | error e =>
              rw [hrec] at h
              exact absurd h (by simp)
          | ok p =>
              rw [hrec] at h
              obtain ⟨storeR, freshR⟩ := p
              simp only [Except.ok.injEq, Prod.mk.injEq] at h
              obtain ⟨h1, h2⟩ := h
              rw [List.map_cons, List.nodup_cons] at hd
              have hs1 : ((updateFirst (fun s => s.id == t.id)
                  (fun s => { s with next_occurrence := nv }) store).map
                    Transaction.id).Nodup := by
                have hmu : (updateFirst (fun s => s.id == t.id)
                    (fun s => { s with next_occurrence := nv }) store).map
                      Transaction.id = store.map Transaction.id :=
                  map_updateFirst (fun x => rfl)
                rw [hmu]
                exact hs
              obtain ⟨hstoreR, hfreshR, hcalcR⟩ := ih _ storeR freshR hs1 hd.2 hrec
              refine ⟨?_, ?_, ?_⟩
              · rw [← h1, hstoreR]
                rw [updateFirst_eq_map (countP_map_nodup_le_one hs t.id),
                  List.map_map]
                apply List.map_congr_left
                intro s _
                dsimp only [Function.comp]
                by_cases hsid : s.id = t.id
                · rw [if_pos (by simp [hsid])]
                  have hfr : rest.find? (fun u => u.id == s.id) = Option.none := by
                    rw [List.find?_eq_none]
                    intro a ha hba
                    have : a.id = s.id := by simpa using hba
                    exact hd.1 (by
                      rw [← hsid, ← this]
                      exact List.mem_map_of_mem Transaction.id ha)
                  have hft : (t :: rest).find? (fun u => u.id == s.id) = some t :=
                    List.find?_cons_of_pos rest (by simp [hsid])
                  rw [hft]
                  simp only [hfr]
                  have : nextOccValue now t = nv := by
                    unfold nextOccValue
                    rw [hcn]
                  rw [this]
                · rw [if_neg (by simp [hsid])]
                  rw [List.find?_cons_of_neg rest (by simp; exact fun h => hsid h.symm)]
              · rw [← h2, hfreshR]
                rfl
              · intro a ha
                rcases List.mem_cons.mp ha with rfl | ha2
                · exact ⟨nv, hcn⟩
                · exact hcalcR a ha2

/-- C3 (amended): a successful run of `process_due_recurring` appends,
for each stored transaction with `is_recurring = true` and
`next_occurrence ≤ now`, exactly one new transaction whose
`is_recurring` is false, `recurrence_type` is none, description is the
original's suffixed with " (Auto-generated)", date equals the original's
old `next_occurrence`, and whose type, category, amount, tags and
user_id are copied from the original — but whose currency is the model
default INR, NOT copied from the original; and it rewrites each due
original's `next_occurrence` to the Recurrence Calculator applied to the
original's old `next_occurrence` (not to now) and its
`recurrence_type`. -/
theorem C3_process_recurring (db : Db) (newId : Nat → Nat) (now : Date)
    (hnodup : (db.transactions.map Transaction.id).Nodup)
    (hcap : (db.transactions.filter (isDue now)).length ≤ 1000)
    (db2 : Db) (n : Nat)
    (hrun : process_recurring_transactions db newId now = Except.ok (db2, n)) :
    db2.transactions =
      db.transactions.map (fun s => if isDue now s then
        { s with next_occurrence := nextOccValue now s } else s) ++
      (db.transactions.filter (isDue now)).map (materialize newId now) ∧
    db2.budgets = db.budgets ∧
    n = (db.transactions.filter (isDue now)).length ∧
    (∀ t ∈ db.transactions.filter (isDue now),
      (∃ v, calculate_next_occurrence (t.next_occurrence.getD now)
          t.recurrence_type = Except.ok v ∧ nextOccValue now t = v) ∧
      materialize newId now t =
        ⟨newId t.id, t.user_id, t.type, t.category, t.amount, Currency.INR,
          t.description ++ " (Auto-generated)", t.next_occurrence.getD now,
          t.tags, false, RecurrenceType.none, Option.none, now⟩ ∧
      some (t.next_occurrence.getD now) = t.next_occurrence) := by
  unfold process_recurring_transactions at hrun
  dsimp only at hrun
  rw [List.take_of_length_le hcap] at hrun
  cases hloop : processLoop newId now db.transactions
      (db.transactions.filter (isDue now)) with
  | error e =>
      rw [hloop] at hrun
      exact absurd hrun (by simp [Bind.bind, Except.bind])
  | ok p =>
      obtain ⟨store, fresh⟩ := p
      rw [hloop] at hrun
      simp only [Bind.bind, Except.bind, Except.ok.injEq, Prod.mk.injEq] at hrun
      obtain ⟨hdb2, hn⟩ := hrun
      have hdnodup : ((db.transactions.filter (isDue now)).map
          Transaction.id).Nodup :=
        List.Nodup.sublist (List.Sublist.map _ (List.filter_sublist _)) hnodup
      obtain ⟨hstore, hfresh, hcalc⟩ :=
        processLoop_spec newId now _ _ _ _ hnodup hdnodup hloop
      have hfind : ∀ s ∈ db.transactions,
          (db.transactions.filter (isDue now)).find? (fun t => t.id == s.id) =
          if isDue now s then some s else Option.none := by
        intro s hs
        by_cases hdue : isDue now s = true
        · rw [if_pos hdue]
          apply find?_mem_unique (List.mem_filter.mpr ⟨hs, hdue⟩) (by simp)
          intro a ha hpa
          have haid : a.id = s.id := by simpa using hpa
          exact List.inj_on_of_nodup_map hnodup (List.mem_of_mem_filter ha) hs haid
        · rw [if_neg hdue, List.find?_eq_none]
          intro a ha hpa
          have haid : a.id = s.id := by simpa using hpa
          have has : a = s :=
            List.inj_on_of_nodup_map hnodup (List.mem_of_mem_filter ha) hs haid
          rw [has] at ha
          exact hdue (List.of_mem_filter ha)
      refine ⟨?_, ?_, ?_, ?_⟩
      · rw [← hdb2]
        dsimp only
        rw [hstore, hfresh]
        congr 1
        apply List.map_congr_left
        intro s hs
        rw [hfind s hs]
        by_cases hdue : isDue now s = true
        · rw [if_pos hdue, if_pos hdue]
        · rw [if_neg hdue, if_neg hdue]
      · rw [← hdb2]
      · rw [← hn, hfresh, List.length_map]
      · intro t ht
        obtain ⟨v, hv⟩ := hcalc t ht
        have hdue := List.of_mem_filter ht
        unfold isDue at hdue
        rw [Bool.and_eq_true] at hdue
        refine ⟨⟨v, hv, by unfold nextOccValue; rw [hv]⟩, rfl, ?_⟩
        cases hno : t.next_occurrence with
        | none => rw [hno] at hdue; cases hdue.2
        | some d => rfl

/-- Witness for C3: one due daily USD recurring transaction processed at
2024-05-03. -/
theorem C3_process_recurring_witness :
    (⟨[⟨7, 1, TransactionType.expense, TransactionCategory.food, 5, Currency.USD,
          "coffee", ⟨2024, 5, 1⟩, [], true, RecurrenceType.daily,
          some ⟨2024, 5, 3⟩, ⟨2024, 5, 1⟩⟩,
        ⟨107, 1, TransactionType.expense, TransactionCategory.food, 5, Currency.INR,
          "coffee (Auto-generated)", ⟨2024, 5, 2⟩, [], false, RecurrenceType.none,
          Option.none, ⟨2024, 5, 3⟩⟩], []⟩ : Db).transactions =
      [(⟨7, 1, TransactionType.expense, TransactionCategory.food, 5, Currency.USD,
          "coffee", ⟨2024, 5, 1⟩, [], true, RecurrenceType.daily,
          some ⟨2024, 5, 2⟩, ⟨2024, 5, 1⟩⟩ : Transaction)].map
        (fun s => if isDue ⟨2024, 5, 3⟩ s then
          { s with next_occurrence := nextOccValue ⟨2024, 5, 3⟩ s } else s) ++
      ([(⟨7, 1, TransactionType.expense, TransactionCategory.food, 5, Currency.USD,
          "coffee", ⟨2024, 5, 1⟩, [], true, RecurrenceType.daily,
          some ⟨2024, 5, 2⟩, ⟨2024, 5, 1⟩⟩ : Transaction)].filter
        (isDue ⟨2024, 5, 3⟩)).map (materialize (fun i => i + 100) ⟨2024, 5, 3⟩) ∧
    (⟨[⟨7, 1, TransactionType.expense, TransactionCategory.food, 5, Currency.USD,
          "coffee", ⟨2024, 5, 1⟩, [], true, RecurrenceType.daily,
          some ⟨2024, 5, 3⟩, ⟨2024, 5, 1⟩⟩,
        ⟨107, 1, TransactionType.expense, TransactionCategory.food, 5, Currency.INR,
          "coffee (Auto-generated)", ⟨2024, 5, 2⟩, [], false, RecurrenceType.none,
          Option.none, ⟨2024, 5, 3⟩⟩], []⟩ : Db).budgets = ([] : List Budget) ∧
    1 = ([(⟨7, 1, TransactionType.expense, TransactionCategory.food, 5, Currency.USD,
          "coffee", ⟨2024, 5, 1⟩, [], true, RecurrenceType.daily,
          some ⟨2024, 5, 2⟩, ⟨2024, 5, 1⟩⟩ : Transaction)].filter
        (isDue ⟨2024, 5, 3⟩)).length ∧
    (∀ t ∈ [(⟨7, 1, TransactionType.expense, TransactionCategory.food, 5,
          Currency.USD, "coffee", ⟨2024, 5, 1⟩, [], true, RecurrenceType.daily,
          some ⟨2024, 5, 2⟩, ⟨2024, 5, 1⟩⟩ : Transaction)].filter
        (isDue ⟨2024, 5, 3⟩),
      (∃ v, calculate_next_occurrence (t.next_occurrence.getD ⟨2024, 5, 3⟩)
          t.recurrence_type = Except.ok v ∧ nextOccValue ⟨2024, 5, 3⟩ t = v) ∧
      materialize (fun i => i + 100) ⟨2024, 5, 3⟩ t =
        ⟨(fun i => i + 100) t.id, t.user_id, t.type, t.category, t.amount,
          Currency.INR, t.description ++ " (Auto-generated)",
          t.next_occurrence.getD ⟨2024, 5, 3⟩, t.tags, false,
          RecurrenceType.none, Option.none, ⟨2024, 5, 3⟩⟩ ∧
      some (t.next_occurrence.getD ⟨2024, 5, 3⟩) = t.next_occurrence) :=
  C3_process_recurring
    ⟨[⟨7, 1, TransactionType.expense, TransactionCategory.food, 5, Currency.USD,
        "coffee", ⟨2024, 5, 1⟩, [], true, RecurrenceType.daily,
        some ⟨2024, 5, 2⟩, ⟨2024, 5, 1⟩⟩], []⟩
    (fun i => i + 100) ⟨2024, 5, 3⟩ (by decide) (by decide)
    ⟨[⟨7, 1, TransactionType.expense, TransactionCategory.food, 5, Currency.USD,
        "coffee", ⟨2024, 5, 1⟩, [], true, RecurrenceType.daily,
        some ⟨2024, 5, 3⟩, ⟨2024, 5, 1⟩⟩,
      ⟨107, 1, TransactionType.expense, TransactionCategory.food, 5, Currency.INR,
        "coffee (Auto-generated)", ⟨2024, 5, 2⟩, [], false, RecurrenceType.none,
        Option.none, ⟨2024, 5, 3⟩⟩], []⟩ 1 rfl

/-- Counterexample for C3 as stated: processing a due USD recurring
transaction materializes a transaction whose currency is INR, not the
original's USD — currency is not among the copied fields. -/
theorem C3_process_recurring_cex :
    (process_recurring_transactions
        ⟨[⟨7, 1, TransactionType.expense, TransactionCategory.food, 5, Currency.USD,
            "coffee", ⟨2024, 5, 1⟩, [], true, RecurrenceType.daily,
            some ⟨2024, 5, 2⟩, ⟨2024, 5, 1⟩⟩], []⟩
        (fun i => i + 100) ⟨2024, 5, 3⟩).map
      (fun p => p.1.transactions.map Transaction.currency) =
      Except.ok [Currency.USD, Currency.INR] ∧
    Currency.INR ≠ Currency.USD := by
  exact ⟨rfl, by decide⟩

end BudgetApp
